import Mathlib

/-!
# Motherboard market sourcing engines: a shallow embedding

This file embeds the core scoring engines of the hardware-sourcing
code base (specification parser, inventory matcher and ranker,
authenticity assessor, adapter resolver, workaround safety validator,
pricing negotiator) as executable Lean definitions, and proves or
refutes the frozen specification claims about them.

Conventions used throughout the embedding:
* JavaScript numbers are modelled as exact rationals (`ℚ`).  Rational
  division is total with `x / 0 = 0`; every place where the source can
  divide by zero is noted at the definition.
* Class instance state (constructor-initialised lookup tables, the
  component database) is passed explicitly; `new Date().getMonth()` is
  an explicit `month` argument.
* JavaScript string truthiness (empty string and `undefined` are
  falsy) is modelled with `Option String` plus explicit emptiness
  tests.
-/

-- The Batteries rational-number operations are `@[irreducible]`, which
-- blocks kernel evaluation of concrete scores by `decide`.  Restore the
-- default reducibility for this file; proofs still pass the kernel with
-- the standard axioms only.
attribute [local semireducible] Rat.add Rat.sub Rat.mul Rat.inv Rat.ofScientific

/-- JavaScript whitespace characters relevant to the embedded regexes
(`\s` and `String.prototype.trim`). -/
def jsWhitespace (c : Char) : Bool :=
  c = ' ' || c = '\t' || c = '\n' || c = '\r'

/-- A word character in the JavaScript regex sense (`\w`): ASCII
letters, digits and underscore. -/
def jsWordChar (c : Char) : Bool :=
  c.isDigit || (c ≥ 'a' && c ≤ 'z') || (c ≥ 'A' && c ≤ 'Z') || c = '_'

/-- Does `needle` occur as a contiguous subsequence of the list? -/
def listContainsSeq (needle : List Char) : List Char → Bool
  | [] => needle.isEmpty
  | c :: rest => needle.isPrefixOf (c :: rest) || listContainsSeq needle rest

/-- Embeds `haystack.includes(needle)` on JavaScript strings. -/
def strIncludes (haystack needle : String) : Bool :=
  listContainsSeq needle.toList haystack.toList

/-- Embeds `String.prototype.toLowerCase` restricted to ASCII, which is all the
source ever feeds it (list-based so that the kernel can evaluate it). -/
def jsToLower (s : String) : String := String.mk (s.toList.map Char.toLower)

/-- Embeds `String.prototype.toUpperCase` restricted to ASCII. -/
def jsToUpper (s : String) : String := String.mk (s.toList.map Char.toUpper)

/-- Embeds `String.prototype.trim` (list-based). -/
def jsTrim (s : String) : String :=
  String.mk (((s.toList.dropWhile jsWhitespace).reverse.dropWhile jsWhitespace).reverse)

/-- Abstract syntax of the JavaScript regular expressions appearing in
the source.  Only the constructs actually used are represented:
literals, the classes `\d`, `[a-z]`, `\s`, `\w`, finite character sets,
sequencing, ordered alternation, greedy star/plus/option and the
zero-width word boundary `\b`. -/
inductive RE where
  | fail : RE
  | eps : RE
  | lit (c : Char) : RE
  | digit : RE
  | lower : RE
  | wsp : RE
  | wordc : RE
  | cset (s : List Char) : RE
  | seq (a b : RE) : RE
  | alt (a b : RE) : RE
  | star (a : RE) : RE
  | opt (a : RE) : RE
  | bword : RE
deriving Repr

/-- Sequencing of a list of regexes. -/
def rseq (l : List RE) : RE := l.foldr RE.seq RE.eps

/-- Ordered alternation of a list of regexes (JavaScript `|` prefers the
leftmost alternative). -/
def ralt (l : List RE) : RE := l.foldr RE.alt RE.fail

/-- A string literal regex. -/
def rstr (s : String) : RE := rseq (s.toList.map RE.lit)

/-- Greedy `+`. -/
def rplus (r : RE) : RE := RE.seq r (RE.star r)

/-- Does a word boundary (`\b`) sit between the previous character and
the rest of the input? -/
def atWordBoundary (prev : Option Char) (rest : List Char) : Bool :=
  let before := match prev with
    | none => false
    | some c => jsWordChar c
  let after := match rest with
    | [] => false
    | c :: _ => jsWordChar c
  before ≠ after

/-- Fuel-indexed backtracking matcher in continuation-passing style,
implementing the standard JavaScript (leftmost, alternation-ordered,
greedy) semantics.  `prev` is the character to the left of the current
position (for `\b`).  The continuation receives the updated left
context and the unconsumed input.  The fuel only bounds the recursion
depth; `reFuel` below always provides enough. -/
def reMatch : Nat → RE → Option Char → List Char →
    (Option Char → List Char → Option (List Char)) → Option (List Char)
  | 0, _, _, _, _ => none
  | _ + 1, RE.fail, _, _, _ => none
  | _ + 1, RE.eps, prev, cs, k => k prev cs
  | _ + 1, RE.lit c, _, cs, k =>
    match cs with
    | [] => none
    | x :: rest => if x = c then k (some x) rest else none
  | _ + 1, RE.digit, _, cs, k =>
    match cs with
    | [] => none
    | x :: rest => if x.isDigit then k (some x) rest else none
  | _ + 1, RE.lower, _, cs, k =>
    match cs with
    | [] => none
    | x :: rest => if x ≥ 'a' && x ≤ 'z' then k (some x) rest else none
  | _ + 1, RE.wsp, _, cs, k =>
    match cs with
    | [] => none
    | x :: rest => if jsWhitespace x then k (some x) rest else none
  | _ + 1, RE.wordc, _, cs, k =>
    match cs with
    | [] => none
    | x :: rest => if jsWordChar x then k (some x) rest else none
  | _ + 1, RE.cset s, _, cs, k =>
    match cs with
    | [] => none
    | x :: rest => if s.contains x then k (some x) rest else none
  | fuel + 1, RE.seq a b, prev, cs, k =>
    reMatch fuel a prev cs (fun prev2 cs2 => reMatch fuel b prev2 cs2 k)
  | fuel + 1, RE.alt a b, prev, cs, k =>
    match reMatch fuel a prev cs k with
    | some r => some r
    | none => reMatch fuel b prev cs k
  | fuel + 1, RE.star a, prev, cs, k =>
    -- Greedy: try one more (progress-making) iteration first.  All star
    -- bodies in the embedded patterns consume at least one character,
    -- so the progress check never prunes a real parse.
    match reMatch fuel a prev cs (fun prev2 cs2 =>
        if cs2.length < cs.length then reMatch fuel (RE.star a) prev2 cs2 k
        else none) with
    | some r => some r
    | none => k prev cs
  | fuel + 1, RE.opt a, prev, cs, k =>
    match reMatch fuel a prev cs k with
    | some r => some r
    | none => k prev cs
  | _ + 1, RE.bword, prev, cs, k =>
    if atWordBoundary prev cs then k prev cs else none

/-- Fuel that is always sufficient for the fixed patterns of the source
on the given input. -/
def reFuel (cs : List Char) : Nat := 400 * (cs.length + 5)

/-- A source pattern with one capturing group of interest, split as
`pre (grp) post`. -/
structure Pat where
  pre : RE
  grp : RE
  post : RE

/-- Try to match `pat` at the current position, returning the text of
the capturing group.  Backtracking into the group when the tail fails is
provided by the continuation structure. -/
def tryCapAt (pat : Pat) (prev : Option Char) (cs : List Char) : Option (List Char) :=
  let fuel := reFuel cs
  reMatch fuel pat.pre prev cs (fun prev1 cs1 =>
    reMatch fuel pat.grp prev1 cs1 (fun prev2 cs2 =>
      reMatch fuel pat.post prev2 cs2 (fun _ _ =>
        some (cs1.take (cs1.length - cs2.length)))))

/-- Embeds `String.prototype.match` without the global flag: scan positions
left to right and return the first match's group-1 text. -/
def searchCapAux (pat : Pat) : Option Char → List Char → Option (List Char)
  | prev, cs =>
    match tryCapAt pat prev cs with
    | some r => some r
    | none =>
      match cs with
      | [] => none
      | c :: rest => searchCapAux pat (some c) rest

/-- First group-1 capture of `pat` in `s`, if any. -/
def searchCap (pat : Pat) (s : String) : Option String :=
  (searchCapAux pat none s.toList).map fun cs => String.mk cs

/-- Embeds `RegExp.prototype.test`: does the whole pattern match anywhere? -/
def reTest (pat : Pat) (s : String) : Bool := (searchCap pat s).isSome

/-- Digits to a natural number (`parseInt` on an all-digit string). -/
def digitsToNat (cs : List Char) : Nat :=
  cs.foldl (fun n c => 10 * n + (c.toNat - '0'.toNat)) 0

/-- Embeds `parseFloat` on a string of shape `\d+(\.\d+)?`, as an exact
rational. -/
def parseDecimal (cs : List Char) : ℚ :=
  let intPart := cs.takeWhile Char.isDigit
  let rest := cs.dropWhile Char.isDigit
  match rest with
  | '.' :: fracRest =>
    let frac := fracRest.takeWhile Char.isDigit
    (digitsToNat intPart : ℚ) + (digitsToNat frac : ℚ) / ((10 : ℚ) ^ frac.length)
  | _ => (digitsToNat intPart : ℚ)

/-- Character-set regex from a string of alternatives. -/
def csetOf (s : String) : RE := RE.cset s.toList

/-! ## The pattern tables of `ComponentParser`

Each definition transliterates one regex literal of the source.  The
capture group of interest is the `grp` component of the `Pat`. -/

/-- Embeds `/\b(cpu|processor|intel|amd|i[3579]|ryzen|core)\b/i` -/
def procPat1 : Pat :=
  ⟨RE.bword,
   ralt [rstr "cpu", rstr "processor", rstr "intel", rstr "amd",
         rseq [RE.lit 'i', csetOf "3579"], rstr "ryzen", rstr "core"],
   RE.bword⟩

/-- Embeds `/\b(i[3579]-\d+[a-z]*|ryzen\s*[3579]|xeon|threadripper)\b/i` -/
def procPat2 : Pat :=
  ⟨RE.bword,
   ralt [rseq [RE.lit 'i', csetOf "3579", RE.lit '-', rplus RE.digit, RE.star RE.lower],
         rseq [rstr "ryzen", RE.star RE.wsp, csetOf "3579"],
         rstr "xeon", rstr "threadripper"],
   RE.bword⟩

/-- Embeds `/\b(ram|memory|ddr[345]|dimm|sodimm)\b/i` -/
def memPat1 : Pat :=
  ⟨RE.bword,
   ralt [rstr "ram", rstr "memory", rseq [rstr "ddr", csetOf "345"],
         rstr "dimm", rstr "sodimm"],
   RE.bword⟩

/-- Embeds `/\b(\d+gb|\d+mb)\b/i` -/
def memPat2 : Pat :=
  ⟨RE.bword,
   ralt [rseq [rplus RE.digit, rstr "gb"], rseq [rplus RE.digit, rstr "mb"]],
   RE.bword⟩

/-- Embeds `/\b(pc\d+-\d+|ddr[345]-\d+)\b/i` -/
def memPat3 : Pat :=
  ⟨RE.bword,
   ralt [rseq [rstr "pc", rplus RE.digit, RE.lit '-', rplus RE.digit],
         rseq [rstr "ddr", csetOf "345", RE.lit '-', rplus RE.digit]],
   RE.bword⟩

/-- Embeds `/\b(gpu|graphics|video|rtx|gtx|radeon|rx|vega)\b/i` -/
def graphicsPat1 : Pat :=
  ⟨RE.bword,
   ralt [rstr "gpu", rstr "graphics", rstr "video", rstr "rtx", rstr "gtx",
         rstr "radeon", rstr "rx", rstr "vega"],
   RE.bword⟩

/-- Embeds `/\b(rtx\s*\d+|gtx\s*\d+|rx\s*\d+|vega\s*\d+)\b/i` -/
def graphicsPat2 : Pat :=
  ⟨RE.bword,
   ralt [rseq [rstr "rtx", RE.star RE.wsp, rplus RE.digit],
         rseq [rstr "gtx", RE.star RE.wsp, rplus RE.digit],
         rseq [rstr "rx", RE.star RE.wsp, rplus RE.digit],
         rseq [rstr "vega", RE.star RE.wsp, rplus RE.digit]],
   RE.bword⟩

/-- Embeds `/\b(ssd|hdd|nvme|sata|storage|drive)\b/i` -/
def storagePat1 : Pat :=
  ⟨RE.bword,
   ralt [rstr "ssd", rstr "hdd", rstr "nvme", rstr "sata", rstr "storage",
         rstr "drive"],
   RE.bword⟩

/-- Embeds `/\b(\d+tb|\d+gb)\s*(ssd|hdd)\b/i` (used for `test` only, so the
second group needs no capture). -/
def storagePat2 : Pat :=
  ⟨RE.bword,
   ralt [rseq [rplus RE.digit, rstr "tb"], rseq [rplus RE.digit, rstr "gb"]],
   rseq [RE.star RE.wsp, ralt [rstr "ssd", rstr "hdd"], RE.bword]⟩

/-- Embeds `/\b(motherboard|mobo|mainboard|mb)\b/i` -/
def moboPat1 : Pat :=
  ⟨RE.bword,
   ralt [rstr "motherboard", rstr "mobo", rstr "mainboard", rstr "mb"],
   RE.bword⟩

/-- Embeds `/\b(lga\d+|am[45]|socket)\b/i` -/
def moboPat2 : Pat :=
  ⟨RE.bword,
   ralt [rseq [rstr "lga", rplus RE.digit], rseq [rstr "am", csetOf "45"],
         rstr "socket"],
   RE.bword⟩

/-- Embeds `/\b([a-z]+\d+[a-z]*(?:-\d+[a-z]*)*)\b/i` -/
def pnPat1 : Pat :=
  ⟨RE.bword,
   rseq [rplus RE.lower, rplus RE.digit, RE.star RE.lower,
         RE.star (rseq [RE.lit '-', rplus RE.digit, RE.star RE.lower])],
   RE.bword⟩

/-- Embeds `/\b(i[3579]-\d+[a-z]*)\b/i` -/
def pnPat2 : Pat :=
  ⟨RE.bword,
   rseq [RE.lit 'i', csetOf "3579", RE.lit '-', rplus RE.digit, RE.star RE.lower],
   RE.bword⟩

/-- Embeds `/\b(ryzen\s*[3579]\s*\d+[a-z]*)\b/i` -/
def pnPat3 : Pat :=
  ⟨RE.bword,
   rseq [rstr "ryzen", RE.star RE.wsp, csetOf "3579", RE.star RE.wsp,
         rplus RE.digit, RE.star RE.lower],
   RE.bword⟩

/-- Embeds `/\b([rg]tx?\s*\d+[a-z]*)\b/i` -/
def pnPat4 : Pat :=
  ⟨RE.bword,
   rseq [csetOf "rg", RE.lit 't', RE.opt (RE.lit 'x'), RE.star RE.wsp,
         rplus RE.digit, RE.star RE.lower],
   RE.bword⟩

/-- Embeds `/\b(rx\s*\d+[a-z]*)\b/i` -/
def pnPat5 : Pat :=
  ⟨RE.bword,
   rseq [rstr "rx", RE.star RE.wsp, rplus RE.digit, RE.star RE.lower],
   RE.bword⟩

/-- Embeds `\d+(?:\.\d+)?` — the numeric capture shared by the unit patterns. -/
def numRE : RE := rseq [rplus RE.digit, RE.opt (rseq [RE.lit '.', rplus RE.digit])]

/-- Embeds `/(\d+(?:\.\d+)?)\s*v(?:olt)?s?\b/i` -/
def voltagePat : Pat :=
  ⟨RE.eps, numRE,
   rseq [RE.star RE.wsp, RE.lit 'v', RE.opt (rstr "olt"), RE.opt (RE.lit 's'), RE.bword]⟩

/-- Embeds `/(\d+(?:\.\d+)?)\s*(?:mhz|ghz)\b/i` -/
def frequencyPat : Pat :=
  ⟨RE.eps, numRE,
   rseq [RE.star RE.wsp, ralt [rstr "mhz", rstr "ghz"], RE.bword]⟩

/-- Embeds `/(\d+(?:\.\d+)?)\s*w(?:att)?s?\b/i` -/
def powerPat : Pat :=
  ⟨RE.eps, numRE,
   rseq [RE.star RE.wsp, RE.lit 'w', RE.opt (rstr "att"), RE.opt (RE.lit 's'), RE.bword]⟩

/-- Embeds `/(\d+(?:\.\d+)?)\s*a(?:mp)?s?\b/i` -/
def currentPat : Pat :=
  ⟨RE.eps, numRE,
   rseq [RE.star RE.wsp, RE.lit 'a', RE.opt (rstr "mp"), RE.opt (RE.lit 's'), RE.bword]⟩

/-- Embeds `/(\d+(?:\.\d+)?)\s*(?:g|kg|gram|kilogram)s?\b/i` -/
def weightPat : Pat :=
  ⟨RE.eps, numRE,
   rseq [RE.star RE.wsp, ralt [rstr "g", rstr "kg", rstr "gram", rstr "kilogram"],
         RE.opt (RE.lit 's'), RE.bword]⟩

/-- Embeds `/(\d+(?:\.\d+)?)\s*(?:mm|cm|inch)(?:es)?\s*(?:long|length)\b/i` -/
def lengthPat : Pat :=
  ⟨RE.eps, numRE,
   rseq [RE.star RE.wsp, ralt [rstr "mm", rstr "cm", rstr "inch"],
         RE.opt (rstr "es"), RE.star RE.wsp, ralt [rstr "long", rstr "length"], RE.bword]⟩

/-- Embeds `/(\d+(?:\.\d+)?)\s*(?:mm|cm|inch)(?:es)?\s*(?:wide|width)\b/i` -/
def widthPat : Pat :=
  ⟨RE.eps, numRE,
   rseq [RE.star RE.wsp, ralt [rstr "mm", rstr "cm", rstr "inch"],
         RE.opt (rstr "es"), RE.star RE.wsp, ralt [rstr "wide", rstr "width"], RE.bword]⟩

/-- Embeds `/(\d+(?:\.\d+)?)\s*(?:mm|cm|inch)(?:es)?\s*(?:high|height|tall)\b/i` -/
def heightPat : Pat :=
  ⟨RE.eps, numRE,
   rseq [RE.star RE.wsp, ralt [rstr "mm", rstr "cm", rstr "inch"],
         RE.opt (rstr "es"), RE.star RE.wsp,
         ralt [rstr "high", rstr "height", rstr "tall"], RE.bword]⟩

/-- Embeds `/\b(lga\d+|am[45]|fm[12]|socket\s*\w+)\b/i` -/
def socketPat : Pat :=
  ⟨RE.bword,
   ralt [rseq [rstr "lga", rplus RE.digit], rseq [rstr "am", csetOf "45"],
         rseq [rstr "fm", csetOf "12"],
         rseq [rstr "socket", RE.star RE.wsp, rplus RE.wordc]],
   RE.bword⟩

/-- Embeds `/\b(pcie?\s*[x\d]*|sata[23]?|nvme|usb[23]?|ddr[345])\b/i` -/
def interfacePat : Pat :=
  ⟨RE.bword,
   ralt [rseq [rstr "pci", RE.opt (RE.lit 'e'), RE.star RE.wsp,
               RE.star (csetOf "x0123456789")],
         rseq [rstr "sata", RE.opt (csetOf "23")],
         rstr "nvme",
         rseq [rstr "usb", RE.opt (csetOf "23")],
         rseq [rstr "ddr", csetOf "345"]],
   RE.bword⟩

/-- Embeds `/\b(atx|micro-?atx|mini-?itx|e-?atx|dimm|sodimm)\b/i` -/
def formFactorPat : Pat :=
  ⟨RE.bword,
   ralt [rstr "atx",
         rseq [rstr "micro", RE.opt (RE.lit '-'), rstr "atx"],
         rseq [rstr "mini", RE.opt (RE.lit '-'), rstr "itx"],
         rseq [RE.lit 'e', RE.opt (RE.lit '-'), rstr "atx"],
         rstr "dimm", rstr "sodimm"],
   RE.bword⟩

/-- Embeds `/(\d+)/` — used for pin-count extraction from a socket name. -/
def digitRunPat : Pat := ⟨RE.eps, rplus RE.digit, RE.eps⟩

/-- Embeds `/(\d+)gb/` — used for memory-capacity estimation. -/
def memCapacityPat : Pat := ⟨RE.eps, rplus RE.digit, rstr "gb"⟩

/-! ## Data model

The `models` module of the repository only declares types and string
enums; its members are reconstructed here from their uses across the
engine sources (and the closed enum sets stated in the spec).  Fields
that no embedded operation reads (operating conditions, price history
dates, material composition tables) are omitted. -/

/-- Component categories referenced by the engines. -/
inductive ComponentCategory where
  | processor | memory | graphics | storage | motherboard
  | peripherals | cooling | powerSupply
deriving DecidableEq, Repr

/-- Stock availability statuses referenced by the engines. -/
inductive AvailabilityStatus where
  | inStock | limitedStock | outOfStock | unknown | discontinued
deriving DecidableEq, Repr

/-- Authenticity levels referenced by the engines. -/
inductive AuthenticityLevel where
  | oem | firstCopy | generic | unknown
deriving DecidableEq, Repr

/-- Adapter compatibility bands (`CompatibilityLevel`). -/
inductive CompatibilityLevel where
  | perfect | good | partialBand | poor | incompatible
deriving DecidableEq, Repr

/-- Embeds `ElectricalParameters`. -/
structure ElectricalParameters where
  voltage : ℚ
  current : ℚ
  frequency : ℚ
  powerConsumption : ℚ
deriving DecidableEq, Repr

/-- Embeds `PhysicalParameters`. -/
structure PhysicalParameters where
  length : ℚ
  width : ℚ
  height : ℚ
  weight : ℚ
  formFactor : String
deriving DecidableEq, Repr

/-- Embeds `CompatibilityRequirements`; absent optional fields are `none`. -/
structure CompatibilityRequirements where
  socketType : Option String := none
  interfaceType : Option String := none
  pinConfiguration : Option (List String) := none
  protocolVersion : Option String := none
deriving DecidableEq, Repr

/-- JavaScript truthiness of an optional string field (`undefined` and
the empty string are falsy). -/
def jsTruthyStr : Option String → Bool
  | none => false
  | some s => s ≠ ""

/-- The specification record produced by the parser
(`ComponentSpecification`). -/
structure ComponentSpecification where
  partNumber : String
  category : ComponentCategory
  electricalSpecs : ElectricalParameters
  physicalSpecs : PhysicalParameters
  compatibility : CompatibilityRequirements
deriving DecidableEq, Repr

/-- Nested specification block of an inventory `Component`. -/
structure ComponentSpecs where
  electrical : ElectricalParameters
  physical : PhysicalParameters
  compatibility : CompatibilityRequirements
deriving DecidableEq, Repr

/-- Embeds `MarketLocation`. -/
structure MarketLocation where
  sectionId : String
  shopNumber : String
  floor : ℚ
  x : ℚ
  y : ℚ
deriving DecidableEq, Repr

/-- Embeds `ComponentPricing` (the `lastUpdated` date is never read). -/
structure ComponentPricing where
  retailPrice : ℚ
  marketPrice : ℚ
deriving DecidableEq, Repr

/-- An inventory `Component`. -/
structure Component where
  id : String
  partNumber : String
  category : ComponentCategory
  specifications : ComponentSpecs
  authenticity : AuthenticityLevel
  availability : AvailabilityStatus
  pricing : ComponentPricing
  location : MarketLocation
deriving DecidableEq, Repr

/-- Embeds `ParsedSpecification`. -/
structure ParsedSpecification where
  originalInput : String
  extractedSpecs : ComponentSpecification
  confidence : ℚ
  ambiguities : List String
  validationErrors : List String
deriving DecidableEq, Repr

/-! ## `ComponentParser` -/

/-- The category pattern table, in `Map` insertion order. -/
def componentPatternTable : List (ComponentCategory × List Pat) :=
  [(ComponentCategory.processor, [procPat1, procPat2]),
   (ComponentCategory.memory, [memPat1, memPat2, memPat3]),
   (ComponentCategory.graphics, [graphicsPat1, graphicsPat2]),
   (ComponentCategory.storage, [storagePat1, storagePat2]),
   (ComponentCategory.motherboard, [moboPat1, moboPat2])]

/-- Embeds `ComponentParser.identifyCategory`: count pattern hits per category,
keep the first strict maximum, default to peripherals. -/
def identifyCategory (input : String) : ComponentCategory :=
  (componentPatternTable.foldl
    (fun acc entry =>
      let hits := entry.2.countP (fun p => reTest p input)
      if hits > acc.2 then (entry.1, hits) else acc)
    (ComponentCategory.peripherals, 0)).1

/-- The ordered part-number pattern list. -/
def partNumberPatterns : List Pat := [pnPat1, pnPat2, pnPat3, pnPat4, pnPat5]

/-- Embeds `ComponentParser.extractPartNumber`: first pattern that matches
wins; its capture is stripped of whitespace (`replace(/\s+/g, '')`);
the sentinel `UNKNOWN` is returned on total failure. -/
def extractPartNumber (input : String) : String :=
  match partNumberPatterns.findSome? (fun p => searchCap p input) with
  | some m => String.mk (m.toList.filter (fun c => !jsWhitespace c))
  | none => "UNKNOWN"

/-- Embeds `ComponentParser.extractElectricalSpecs`.  A frequency given in GHz
(the input mentions `ghz` anywhere) is converted to MHz. -/
def extractElectricalSpecs (input : String) : ElectricalParameters :=
  let voltage := match searchCap voltagePat input with
    | some m => parseDecimal m.toList
    | none => 0
  let frequency := match searchCap frequencyPat input with
    | some m =>
      let freq := parseDecimal m.toList
      if strIncludes (jsToLower input) "ghz" then freq * 1000 else freq
    | none => 0
  let powerConsumption := match searchCap powerPat input with
    | some m => parseDecimal m.toList
    | none => 0
  let current := match searchCap currentPat input with
    | some m => parseDecimal m.toList
    | none => 0
  ⟨voltage, current, frequency, powerConsumption⟩

/-- Embeds `ComponentParser.extractPhysicalSpecs`.  A weight given with `kg`
anywhere in the input is converted to grams. -/
def extractPhysicalSpecs (input : String) : PhysicalParameters :=
  let weight := match searchCap weightPat input with
    | some m =>
      let w := parseDecimal m.toList
      if strIncludes (jsToLower input) "kg" then w * 1000 else w
    | none => 0
  let length := match searchCap lengthPat input with
    | some m => parseDecimal m.toList
    | none => 0
  let width := match searchCap widthPat input with
    | some m => parseDecimal m.toList
    | none => 0
  let height := match searchCap heightPat input with
    | some m => parseDecimal m.toList
    | none => 0
  let formFactor := match searchCap formFactorPat input with
    | some m => jsToUpper m
    | none => "UNKNOWN"
  ⟨length, width, height, weight, formFactor⟩

/-- Embeds `ComponentParser.extractCompatibility`. -/
def extractCompatibility (input : String) : CompatibilityRequirements :=
  let socketType := (searchCap socketPat input).map jsToUpper
  let interfaceType := (searchCap interfacePat input).map jsToUpper
  let pinConfiguration :=
    match socketType with
    | some st =>
      if st ≠ "" then
        match searchCap digitRunPat st with
        | some d => some [d ++ " pin"]
        | none => none
      else none
    | none => none
  { socketType := socketType, interfaceType := interfaceType,
    pinConfiguration := pinConfiguration }

/-- The ambiguity message for an unclear category. -/
def categoryAmbiguityMsg : String :=
  "Component category unclear - please specify processor, memory, graphics, etc."

/-- The ambiguity message for missing electrical data. -/
def electricalAmbiguityMsg : String :=
  "No electrical specifications found - please provide voltage, frequency, or power requirements"

/-- Embeds `ComponentParser.parseSpecification`, lines 28-82 of the source.
Note two faithfully reproduced quirks: the first ambiguity guard tests
the JavaScript truthiness of `partNumber`, which can never be falsy
because `extractPartNumber` returns the non-empty sentinel `UNKNOWN`;
and the electrical checks (both the ambiguity flag and the confidence
bonus) consult only voltage and frequency, not current or power. -/
def parseSpecification (input : String) : ParsedSpecification :=
  let normalizedInput := jsTrim (jsToLower input)
  let category := identifyCategory normalizedInput
  let partNumber := extractPartNumber normalizedInput
  let electricalSpecs := extractElectricalSpecs normalizedInput
  let physicalSpecs := extractPhysicalSpecs normalizedInput
  let compatibility := extractCompatibility normalizedInput
  let ambiguities :=
    (if category = ComponentCategory.peripherals ∧ partNumber = "" then
      [categoryAmbiguityMsg] else []) ++
    (if electricalSpecs.voltage = 0 ∧ electricalSpecs.frequency = 0 then
      [electricalAmbiguityMsg] else [])
  let conf1 : ℚ := 1/2
  let conf2 := if partNumber ≠ "" ∧ partNumber ≠ "UNKNOWN" then conf1 + 3/10 else conf1
  let conf3 := if category ≠ ComponentCategory.peripherals then conf2 + 1/5 else conf2
  let conf4 := if electricalSpecs.voltage > 0 ∨ electricalSpecs.frequency > 0 then
    conf3 + 1/5 else conf3
  let conf5 := if jsTruthyStr compatibility.socketType ∨
      jsTruthyStr compatibility.interfaceType then conf4 + 1/10 else conf4
  let confidence := min 1 conf5
  { originalInput := input
    extractedSpecs :=
      { partNumber := if partNumber ≠ "" then partNumber else "UNKNOWN"
        category := category
        electricalSpecs := electricalSpecs
        physicalSpecs := physicalSpecs
        compatibility := compatibility }
    confidence := confidence
    ambiguities := ambiguities
    validationErrors := [] }

/-! ## `FirstCopyHeuristic` -/

/-- Embeds `WeightComparison`. -/
structure WeightComparison where
  measuredWeight : ℚ
  oemStandardWeight : ℚ
  variance : ℚ
  withinTolerance : Bool
deriving DecidableEq, Repr

/-- Embeds `ThermalAssessment`. -/
structure ThermalAssessment where
  heatSyncQuality : ℚ
  thermalConductivity : ℚ
  coolingEfficiency : ℚ
  materialQuality : ℚ
deriving DecidableEq, Repr

/-- Embeds `QualityMetrics`. -/
structure QualityMetrics where
  buildQuality : ℚ
  materialGrade : ℚ
  finishQuality : ℚ
  overallScore : ℚ
deriving DecidableEq, Repr

/-- Embeds `AuthenticityAssessment`. -/
structure AuthenticityAssessment where
  confidenceScore : ℚ
  weightAnalysis : WeightComparison
  thermalAnalysis : ThermalAssessment
  qualityIndicators : QualityMetrics
deriving DecidableEq, Repr

/-- An `OEMStandard` entry (category weight model).  The density range
and material composition tables are never read by the scoring code and
are omitted. -/
structure OEMStandard where
  baseWeight : ℚ
  weightPerCore : Option ℚ := none
  weightPerGB : Option ℚ := none
  weightPerWatt : Option ℚ := none
  weightPerGHz : Option ℚ := none
  weightTolerance : ℚ
deriving DecidableEq, Repr

/-- A `ThermalProfile` entry. -/
structure ThermalProfile where
  baseThermalResistance : ℚ
  heatSyncEfficiency : ℚ
  thermalConductivity : ℚ
  thermalMass : ℚ
  coolingRequirement : ℚ
deriving DecidableEq, Repr

/-- Embeds `FirstCopyHeuristic.initializeOEMStandards` (processor, memory and
graphics entries only). -/
def oemStandards : ComponentCategory → Option OEMStandard
  | ComponentCategory.processor =>
    some { baseWeight := 80, weightPerCore := some 5, weightPerGHz := some 2,
           weightTolerance := 15 }
  | ComponentCategory.memory =>
    some { baseWeight := 40, weightPerGB := some 2, weightTolerance := 10 }
  | ComponentCategory.graphics =>
    some { baseWeight := 500, weightPerWatt := some 3, weightTolerance := 20 }
  | _ => none

/-- Embeds `FirstCopyHeuristic.initializeThermalProfiles`. -/
def thermalProfiles : ComponentCategory → Option ThermalProfile
  | ComponentCategory.processor =>
    some { baseThermalResistance := 3/10, heatSyncEfficiency := 85/100,
           thermalConductivity := 150, thermalMass := 2/100,
           coolingRequirement := 3/2 }
  | ComponentCategory.graphics =>
    some { baseThermalResistance := 2/10, heatSyncEfficiency := 9/10,
           thermalConductivity := 200, thermalMass := 1/10,
           coolingRequirement := 2 }
  | ComponentCategory.memory =>
    some { baseThermalResistance := 1, heatSyncEfficiency := 6/10,
           thermalConductivity := 50, thermalMass := 5/1000,
           coolingRequirement := 1/2 }
  | _ => none

/-- Embeds `Math.round` (round half toward positive infinity). -/
def jsRound (q : ℚ) : ℚ := (⌊q + 1/2⌋ : ℤ)

/-- Embeds `FirstCopyHeuristic.estimateCoreCount`. -/
def estimateCoreCount (component : Component) : ℚ :=
  let partNumber := jsToLower component.partNumber
  if strIncludes partNumber "i3" then 4
  else if strIncludes partNumber "i5" then 6
  else if strIncludes partNumber "i7" then 8
  else if strIncludes partNumber "i9" then 12
  else if strIncludes partNumber "ryzen 3" then 4
  else if strIncludes partNumber "ryzen 5" then 6
  else if strIncludes partNumber "ryzen 7" then 8
  else if strIncludes partNumber "ryzen 9" then 12
  else
    let frequencyGHz := component.specifications.electrical.frequency / 1000
    max 2 (min 16 (jsRound (frequencyGHz * 2)))

/-- Embeds `FirstCopyHeuristic.estimateMemoryCapacity`. -/
def estimateMemoryCapacity (component : Component) : ℚ :=
  let partNumber := jsToLower component.partNumber
  match searchCap memCapacityPat partNumber with
  | some digits => (digitsToNat digits.toList : ℚ)
  | none =>
    let frequency := component.specifications.electrical.frequency
    if frequency ≥ 3200 then 16
    else if frequency ≥ 2400 then 8
    else 4

/-- Embeds `FirstCopyHeuristic.calculateExpectedWeight`.  The non-null
assertions (`standard.weightPerCore!` etc.) are modelled with `getD 0`;
every category that reaches a branch has the corresponding field
populated. -/
def calculateExpectedWeight (component : Component) (standard : OEMStandard) : ℚ :=
  let base := standard.baseWeight
  match component.category with
  | ComponentCategory.processor =>
    let estimatedCores := estimateCoreCount component
    let frequencyGHz := component.specifications.electrical.frequency / 1000
    base + estimatedCores * (standard.weightPerCore.getD 0) +
      frequencyGHz * (standard.weightPerGHz.getD 0)
  | ComponentCategory.memory =>
    let estimatedCapacity := estimateMemoryCapacity component
    base + estimatedCapacity * (standard.weightPerGB.getD 0)
  | ComponentCategory.graphics =>
    let powerWatts := component.specifications.electrical.powerConsumption
    base + powerWatts * (standard.weightPerWatt.getD 0)
  | _ => base

/-- Embeds `FirstCopyHeuristic.analyzeWeight`.  The variance divides by the
expected weight, which is positive for every realistic component of a
standard-bearing category (rational division is total regardless). -/
def analyzeWeight (component : Component) : WeightComparison :=
  let measuredWeight := component.specifications.physical.weight
  match oemStandards component.category with
  | none =>
    { measuredWeight := measuredWeight, oemStandardWeight := measuredWeight,
      variance := 0, withinTolerance := true }
  | some standard =>
    let oemStandardWeight := calculateExpectedWeight component standard
    let variance := (measuredWeight - oemStandardWeight) / oemStandardWeight * 100
    let withinTolerance := |variance| ≤ standard.weightTolerance
    { measuredWeight := measuredWeight, oemStandardWeight := oemStandardWeight,
      variance := variance, withinTolerance := withinTolerance }

/-- Embeds `FirstCopyHeuristic.calculateHeatSyncQuality`. -/
def calculateHeatSyncQuality (profile : ThermalProfile) (powerDensity : ℚ) : ℚ :=
  let requiredEfficiency := min 1 (powerDensity / 100)
  let actualEfficiency := profile.heatSyncEfficiency
  if actualEfficiency ≥ requiredEfficiency then 9/10
  else actualEfficiency / requiredEfficiency

/-- Embeds `FirstCopyHeuristic.calculateThermalConductivity`. -/
def calculateThermalConductivity (component : Component) (profile : ThermalProfile) : ℚ :=
  let expectedConductivity := profile.thermalConductivity
  let powerConsumption := component.specifications.electrical.powerConsumption
  let requiredConductivity := powerConsumption * (1/2)
  min 1 (expectedConductivity / max requiredConductivity 50)

/-- Embeds `FirstCopyHeuristic.calculateCoolingEfficiency`.  For a component
with zero power the source divides by zero; the rational embedding
yields 0 there (the claims do not constrain that degenerate point). -/
def calculateCoolingEfficiency (component : Component) (profile : ThermalProfile) : ℚ :=
  let thermalMass := profile.thermalMass
  let coolingReq := profile.coolingRequirement
  let powerConsumption := component.specifications.electrical.powerConsumption
  let efficiency := thermalMass * coolingReq / (powerConsumption * (1/100))
  min 1 efficiency

/-- Embeds `FirstCopyHeuristic.calculateMaterialQuality`. -/
def calculateMaterialQuality (component : Component) : ℚ :=
  let weightAnalysis := analyzeWeight component
  if weightAnalysis.withinTolerance then 9/10
  else
    let penalty := |weightAnalysis.variance| / 100
    max (3/10) (9/10 - penalty)

/-- Embeds `FirstCopyHeuristic.assessHeatSync`. -/
def assessHeatSync (component : Component) : ThermalAssessment :=
  match thermalProfiles component.category with
  | none =>
    { heatSyncQuality := 1/2, thermalConductivity := 1/2,
      coolingEfficiency := 1/2, materialQuality := 1/2 }
  | some thermalProfile =>
    let powerDensity := component.specifications.electrical.powerConsumption /
      (component.specifications.physical.length * component.specifications.physical.width)
    { heatSyncQuality := calculateHeatSyncQuality thermalProfile powerDensity
      thermalConductivity := calculateThermalConductivity component thermalProfile
      coolingEfficiency := calculateCoolingEfficiency component thermalProfile
      materialQuality := calculateMaterialQuality component }

/-- The `Die Quality` indicator of the processor quality table. -/
def dieQualityScore (component : Component) : ℚ :=
  let efficiency := component.specifications.electrical.frequency /
    component.specifications.electrical.powerConsumption
  min 1 (efficiency / 30)

/-- The `Package Quality` indicator of the processor quality table. -/
def packageQualityScore (component : Component) : ℚ :=
  let volume := component.specifications.physical.length *
    component.specifications.physical.width * component.specifications.physical.height
  let density := component.specifications.physical.weight / volume
  if density > 2 then 9/10 else 6/10

/-- The `Thermal Interface` indicator of the processor quality table. -/
def thermalInterfaceScore (component : Component) : ℚ :=
  if component.authenticity = AuthenticityLevel.oem then 95/100 else 7/10

/-- The `Manufacturing Precision` indicator of the processor quality
table. -/
def manufacturingPrecisionScore (component : Component) : ℚ :=
  if (analyzeWeight component).withinTolerance then 9/10 else 6/10

/-- One quality indicator: name, weight, assessment function. -/
structure QualityIndicator where
  name : String
  weight : ℚ
  assessmentFunction : Component → ℚ

/-- Embeds `FirstCopyHeuristic.initializeQualityIndicators` (processor list
only; every other category maps to the empty list). -/
def qualityIndicators : ComponentCategory → List QualityIndicator
  | ComponentCategory.processor =>
    [⟨"Die Quality", 3/10, dieQualityScore⟩,
     ⟨"Package Quality", 25/100, packageQualityScore⟩,
     ⟨"Thermal Interface", 25/100, thermalInterfaceScore⟩,
     ⟨"Manufacturing Precision", 2/10, manufacturingPrecisionScore⟩]
  | _ => []

/-- Embeds `FirstCopyHeuristic.assessQualityMetrics`: indicators are routed to
build/material/finish buckets by name substring, the buckets are scaled
and capped at 10, and the overall score is their mean normalised to
0-1. -/
def assessQualityMetrics (component : Component) : QualityMetrics :=
  let indicators := qualityIndicators component.category
  let step := fun (acc : ℚ × ℚ × ℚ) (indicator : QualityIndicator) =>
    let score := indicator.assessmentFunction component
    if strIncludes indicator.name "Die" || strIncludes indicator.name "Package" then
      (acc.1 + score * indicator.weight, acc.2.1, acc.2.2)
    else if strIncludes indicator.name "Material" ||
        strIncludes indicator.name "Thermal" then
      (acc.1, acc.2.1 + score * indicator.weight, acc.2.2)
    else
      (acc.1, acc.2.1, acc.2.2 + score * indicator.weight)
  let raw := indicators.foldl step (0, 0, 0)
  let buildQuality := min 10 (raw.1 * 10)
  let materialGrade := min 10 (raw.2.1 * 10)
  let finishQuality := min 10 (raw.2.2 * 10)
  let overallScore := (buildQuality + materialGrade + finishQuality) / 30
  { buildQuality := buildQuality, materialGrade := materialGrade,
    finishQuality := finishQuality, overallScore := overallScore }

/-- Embeds `FirstCopyHeuristic.calculateAuthenticityScore`, lines 80-131 of the
source: base 50, weight contribution, thermal mean times 25, quality
overall times 25, authenticity-level adjustment, clamped to
`[0, 100]`. -/
def calculateAuthenticityScore (component : Component) : AuthenticityAssessment :=
  let weightAnalysis := analyzeWeight component
  let thermalAnalysis := assessHeatSync component
  let qualityMetrics := assessQualityMetrics component
  let score1 : ℚ := 50
  let score2 :=
    if weightAnalysis.withinTolerance then score1 + 30
    else score1 - min 30 (|weightAnalysis.variance| * 2)
  let thermalScore := (thermalAnalysis.heatSyncQuality +
    thermalAnalysis.thermalConductivity + thermalAnalysis.coolingEfficiency +
    thermalAnalysis.materialQuality) / 4
  let score3 := score2 + thermalScore * 25
  let score4 := score3 + qualityMetrics.overallScore * 25
  let score5 :=
    match component.authenticity with
    | AuthenticityLevel.oem => score4 + 20
    | AuthenticityLevel.firstCopy => score4 + 10
    | AuthenticityLevel.generic => score4 - 10
    | AuthenticityLevel.unknown => score4 - 20
  let confidenceScore := max 0 (min 100 score5)
  { confidenceScore := confidenceScore, weightAnalysis := weightAnalysis,
    thermalAnalysis := thermalAnalysis, qualityIndicators := qualityMetrics }

/-! ## `HardwareSourcingEngine` -/

/-- Embeds `AlternativeSuggestion`. -/
structure AlternativeSuggestion where
  component : Component
  compatibilityScore : ℚ
  reason : String
  tradeoffs : List String
deriving DecidableEq, Repr

/-- Embeds `SearchResult`. -/
structure SearchResult where
  component : Component
  availabilityStatus : AvailabilityStatus
  location : MarketLocation
  compatibilityScore : ℚ
  qualityScore : ℚ
  requiresClarification : Bool
  clarificationPrompts : List String
  alternatives : List AlternativeSuggestion
deriving DecidableEq, Repr

/-- Embeds `SearchQuery` (the `category` and `maxResults` fields are never read
by `searchComponents`). -/
structure SearchQuery where
  specification : String
  category : ComponentCategory
  maxResults : Option ℚ := none
deriving DecidableEq, Repr

/-- Sample processor `cpu-001` from
`HardwareSourcingEngine.initializeComponentDatabase`. -/
def cpu001 : Component :=
  { id := "cpu-001", partNumber := "i7-12700K",
    category := ComponentCategory.processor,
    specifications :=
      { electrical := { voltage := 12/10, current := 125, frequency := 3600,
                        powerConsumption := 125 }
        physical := { length := 375/10, width := 375/10, height := 75/10,
                      weight := 85, formFactor := "LGA1700" }
        compatibility := { socketType := some "LGA1700",
                           pinConfiguration := some ["1700 pin"],
                           interfaceType := some "PCIe 5.0",
                           protocolVersion := some "5.0" } }
    authenticity := AuthenticityLevel.oem
    availability := AvailabilityStatus.inStock
    pricing := { retailPrice := 25000, marketPrice := 22000 }
    location := { sectionId := "proc-zone", shopNumber := "A-101", floor := 1,
                  x := 10, y := 15 } }

/-- Sample processor `cpu-002`. -/
def cpu002 : Component :=
  { id := "cpu-002", partNumber := "R7-5800X",
    category := ComponentCategory.processor,
    specifications :=
      { electrical := { voltage := 135/100, current := 105, frequency := 3800,
                        powerConsumption := 105 }
        physical := { length := 40, width := 40, height := 8,
                      weight := 90, formFactor := "AM4" }
        compatibility := { socketType := some "AM4",
                           pinConfiguration := some ["1331 pin"],
                           interfaceType := some "PCIe 4.0",
                           protocolVersion := some "4.0" } }
    authenticity := AuthenticityLevel.oem
    availability := AvailabilityStatus.inStock
    pricing := { retailPrice := 28000, marketPrice := 25000 }
    location := { sectionId := "proc-zone", shopNumber := "A-102", floor := 1,
                  x := 20, y := 15 } }

/-- Sample memory module `mem-001`. -/
def mem001 : Component :=
  { id := "mem-001", partNumber := "CMK16GX4M2D3200C16",
    category := ComponentCategory.memory,
    specifications :=
      { electrical := { voltage := 135/100, current := 2, frequency := 3200,
                        powerConsumption := 5 }
        physical := { length := 13335/100, width := 7, height := 31,
                      weight := 45, formFactor := "DIMM" }
        compatibility := { socketType := some "DDR4",
                           pinConfiguration := some ["288 pin"],
                           interfaceType := some "DDR4",
                           protocolVersion := some "4.0" } }
    authenticity := AuthenticityLevel.oem
    availability := AvailabilityStatus.inStock
    pricing := { retailPrice := 6500, marketPrice := 5800 }
    location := { sectionId := "mem-zone", shopNumber := "B-201", floor := 2,
                  x := 5, y := 25 } }

/-- The constructor-initialised component database, as a keyed list in
`Map` insertion order. -/
def componentDatabase : List (String × List Component) :=
  [("processors", [cpu001, cpu002]), ("memory", [mem001])]

/-- Embeds `HardwareSourcingEngine.isComponentMatch`: exact category, then a
part-number substring short-circuit accept, then 10%-tolerance checks
for the specified (positive) electrical fields, then exact matches for
the specified compatibility fields. -/
def isComponentMatch (component : Component) (specs : ComponentSpecification) : Bool :=
  if component.category ≠ specs.category then false
  else if (specs.partNumber ≠ "" && specs.partNumber ≠ "UNKNOWN") &&
      strIncludes (jsToLower component.partNumber) (jsToLower specs.partNumber) then
    true
  else
    let tolerance : ℚ := 1/10
    if specs.electricalSpecs.voltage > 0 &&
        |component.specifications.electrical.voltage - specs.electricalSpecs.voltage| >
          component.specifications.electrical.voltage * tolerance then false
    else if specs.electricalSpecs.frequency > 0 &&
        |component.specifications.electrical.frequency - specs.electricalSpecs.frequency| >
          component.specifications.electrical.frequency * tolerance then false
    else if jsTruthyStr specs.compatibility.socketType &&
        component.specifications.compatibility.socketType ≠ specs.compatibility.socketType then
      false
    else if jsTruthyStr specs.compatibility.interfaceType &&
        component.specifications.compatibility.interfaceType ≠ specs.compatibility.interfaceType then
      false
    else true

/-- Embeds `HardwareSourcingEngine.findMatchingComponents`: scan every entry of
the database in order. -/
def findMatchingComponents (db : List (String × List Component))
    (specs : ComponentSpecification) : List Component :=
  db.foldr (fun entry acc =>
    entry.2.filter (fun component => isComponentMatch component specs) ++ acc) []

/-- The electrical criterion accumulator of
`HardwareSourcingEngine.calculateCompatibilityScore`: achieved points
and applicable sub-weight for voltage (10), frequency (15) and power
(10). -/
def electricalScorePair (component : Component)
    (specs : ComponentSpecification) : ℚ × ℚ :=
  let s0 : ℚ × ℚ := (0, 0)
  let s1 :=
    if specs.electricalSpecs.voltage > 0 then
      let voltageDiff := |component.specifications.electrical.voltage -
        specs.electricalSpecs.voltage|
      (s0.1 + max 0 (10 - voltageDiff / specs.electricalSpecs.voltage * 100), s0.2 + 10)
    else s0
  let s2 :=
    if specs.electricalSpecs.frequency > 0 then
      let freqDiff := |component.specifications.electrical.frequency -
        specs.electricalSpecs.frequency|
      (s1.1 + max 0 (15 - freqDiff / specs.electricalSpecs.frequency * 100), s1.2 + 15)
    else s1
  if specs.electricalSpecs.powerConsumption > 0 then
    let powerDiff := |component.specifications.electrical.powerConsumption -
      specs.electricalSpecs.powerConsumption|
    (s2.1 + max 0 (10 - powerDiff / specs.electricalSpecs.powerConsumption * 100), s2.2 + 10)
  else s2

/-- The compatibility criterion accumulator of
`calculateCompatibilityScore`: socket and interface exact matches, 20
points each. -/
def compatScorePair (component : Component)
    (specs : ComponentSpecification) : ℚ × ℚ :=
  let s0 : ℚ × ℚ := (0, 0)
  let s1 :=
    if jsTruthyStr specs.compatibility.socketType then
      ((if component.specifications.compatibility.socketType =
          specs.compatibility.socketType then s0.1 + 20 else s0.1), s0.2 + 20)
    else s0
  if jsTruthyStr specs.compatibility.interfaceType then
    ((if component.specifications.compatibility.interfaceType =
        specs.compatibility.interfaceType then s1.1 + 20 else s1.1), s1.2 + 20)
  else s1

/-- Embeds `HardwareSourcingEngine.calculateCompatibilityScore`, lines 392-460
of the source.  `maxScore` is accumulated unconditionally for all three
criteria (25 + 35 + 40 = 100); a criterion the query does not exercise
contributes zero to `score` but still counts in the denominator. -/
def calculateCompatibilityScore (component : Component)
    (specs : ComponentSpecification) : ℚ :=
  let maxScore : ℚ := 25 + 35 + 40
  let categoryScore : ℚ := if component.category = specs.category then 25 else 0
  let electrical := electricalScorePair component specs
  let electricalPart : ℚ := if electrical.2 > 0 then electrical.1 / electrical.2 * 35 else 0
  let compat := compatScorePair component specs
  let compatPart : ℚ := if compat.2 > 0 then compat.1 / compat.2 * 40 else 0
  let score := categoryScore + electricalPart + compatPart
  if maxScore > 0 then score / maxScore else 0

/-- Embeds `HardwareSourcingEngine.calculateQualityScore`: authenticity
confidence rescaled to 0-1. -/
def calculateQualityScore (component : Component) : ℚ :=
  (calculateAuthenticityScore component).confidenceScore / 100

/-- Embeds `HardwareSourcingEngine.generateAlternativeReason`. -/
def generateAlternativeReason (component : Component)
    (specs : ComponentSpecification) : String :=
  let reasons :=
    (if component.category = specs.category then ["Same component category"] else []) ++
    (if component.specifications.compatibility.socketType =
        specs.compatibility.socketType then ["Compatible socket type"] else []) ++
    (if component.specifications.compatibility.interfaceType =
        specs.compatibility.interfaceType then ["Compatible interface"] else [])
  let joined := String.intercalate ", " reasons
  if joined ≠ "" then joined else "Similar specifications"

/-- Embeds `HardwareSourcingEngine.identifyTradeoffs`. -/
def identifyTradeoffs (component : Component)
    (specs : ComponentSpecification) : List String :=
  (if specs.electricalSpecs.frequency ≠ 0 ∧
      component.specifications.electrical.frequency < specs.electricalSpecs.frequency then
    ["Lower frequency than requested"] else []) ++
  (if specs.electricalSpecs.powerConsumption ≠ 0 ∧
      component.specifications.electrical.powerConsumption >
        specs.electricalSpecs.powerConsumption then
    ["Higher power consumption"] else [])

/-- Insertion step of the stable comparator sort used to model
`Array.prototype.sort`. -/
def jsOrderedInsert (le : α → α → Bool) (a : α) : List α → List α
  | [] => [a]
  | b :: l => if le a b then a :: b :: l else b :: jsOrderedInsert le a l

/-- Stable sort by a boolean "comes-no-later-than" relation, modelling
`Array.prototype.sort` with a consistent comparator (insertion sort is
stable, as the ECMAScript sort is required to be). -/
def jsSort (le : α → α → Bool) : List α → List α
  | [] => []
  | a :: l => jsOrderedInsert le a (jsSort le l)

/-- Embeds `HardwareSourcingEngine.findAlternativeComponents`: same-category
candidates scoring strictly above 0.5, sorted by descending
compatibility score, first five kept. -/
def findAlternativeComponents (db : List (String × List Component))
    (specs : ComponentSpecification) (excludeComponent : Option Component) :
    List AlternativeSuggestion :=
  let alternatives := db.foldr (fun entry acc =>
    entry.2.filterMap (fun component =>
      if (match excludeComponent with
          | some e => component.id == e.id
          | none => false) then none
      else if component.category = specs.category then
        let compatibilityScore := calculateCompatibilityScore component specs
        if compatibilityScore > 1/2 then
          some { component := component, compatibilityScore := compatibilityScore,
                 reason := generateAlternativeReason component specs,
                 tradeoffs := identifyTradeoffs component specs }
        else none
      else none) ++ acc) []
  (jsSort (fun a b => b.compatibilityScore ≤ a.compatibilityScore) alternatives).take 5

/-- Embeds `HardwareSourcingEngine.getDefaultLocation`. -/
def getDefaultLocation : MarketLocation :=
  { sectionId := "general", shopNumber := "INFO-01", floor := 1, x := 0, y := 0 }

/-- Embeds `HardwareSourcingEngine.createPlaceholderComponent` (its string
argument is never read by the source body). -/
def createPlaceholderComponent (_specification : String) : Component :=
  { id := "placeholder", partNumber := "UNKNOWN",
    category := ComponentCategory.peripherals,
    specifications :=
      { electrical := { voltage := 0, current := 0, frequency := 0,
                        powerConsumption := 0 }
        physical := { length := 0, width := 0, height := 0, weight := 0,
                      formFactor := "UNKNOWN" }
        compatibility := {} }
    authenticity := AuthenticityLevel.unknown
    availability := AvailabilityStatus.outOfStock
    pricing := { retailPrice := 0, marketPrice := 0 }
    location := getDefaultLocation }

/-- The availability rank record of
`HardwareSourcingEngine.rankSearchResults`.  `discontinued` has no key
in the record, hence `none`. -/
def availabilityOrder : AvailabilityStatus → Option ℚ
  | AvailabilityStatus.inStock => some 3
  | AvailabilityStatus.limitedStock => some 2
  | AvailabilityStatus.outOfStock => some 1
  | AvailabilityStatus.unknown => some 0
  | AvailabilityStatus.discontinued => none

/-- The comparator of `rankSearchResults`.  A missing availability rank
makes the JavaScript subtraction `NaN`, which the ECMAScript sort
machinery coerces to `+0` (treated as a tie). -/
def searchResultCmp (a b : SearchResult) : ℚ :=
  if a.compatibilityScore ≠ b.compatibilityScore then
    b.compatibilityScore - a.compatibilityScore
  else if a.qualityScore ≠ b.qualityScore then
    b.qualityScore - a.qualityScore
  else
    match availabilityOrder b.availabilityStatus,
        availabilityOrder a.availabilityStatus with
    | some rb, some ra => rb - ra
    | _, _ => 0

/-- Embeds `HardwareSourcingEngine.rankSearchResults`. -/
def rankSearchResults (results : List SearchResult) : List SearchResult :=
  jsSort (fun a b => searchResultCmp a b ≤ 0) results

/-- Embeds `HardwareSourcingEngine.searchComponents`, lines 35-95 of the
source, with the constructor-initialised database passed explicitly. -/
def searchComponents (db : List (String × List Component))
    (query : SearchQuery) : List SearchResult :=
  let parsedSpec := parseSpecification query.specification
  if parsedSpec.ambiguities.length > 0 then
    [{ component := createPlaceholderComponent query.specification
       availabilityStatus := AvailabilityStatus.unknown
       location := getDefaultLocation
       compatibilityScore := 0, qualityScore := 0
       requiresClarification := true
       clarificationPrompts := parsedSpec.ambiguities
       alternatives := [] }]
  else
    let found := findMatchingComponents db parsedSpec.extractedSpecs
    if found.length = 0 then
      let alternatives := findAlternativeComponents db parsedSpec.extractedSpecs none
      [{ component := createPlaceholderComponent query.specification
         availabilityStatus := AvailabilityStatus.outOfStock
         location := getDefaultLocation
         compatibilityScore := 0, qualityScore := 0
         requiresClarification := false
         clarificationPrompts := []
         alternatives := alternatives }]
    else
      let results := found.map (fun component =>
        { component := component
          availabilityStatus := component.availability
          location := component.location
          compatibilityScore := calculateCompatibilityScore component parsedSpec.extractedSpecs
          qualityScore := calculateQualityScore component
          requiresClarification := false
          clarificationPrompts := []
          alternatives := findAlternativeComponents db parsedSpec.extractedSpecs
            (some component) })
      rankSearchResults results

/-! ## `NegotiationDelta` -/

/-- A `QuantityTier` row. -/
structure QuantityTier where
  minimumQuantity : ℚ
  discountPercentage : ℚ
  tierName : String
  minQuantity : ℚ
  maxQuantity : ℚ
  pricePerUnit : ℚ
deriving DecidableEq, Repr

/-- A `MarketCondition` row. -/
structure MarketCondition where
  supplyLevel : String
  demandLevel : String
  competitionLevel : String
  volatility : String
  discountAdjustment : ℚ
  priceStability : ℚ
deriving DecidableEq, Repr

/-- A `VendorProfile` row. -/
structure VendorProfile where
  name : String
  negotiationFlexibility : ℚ
  volumePreference : String
  discountBonus : ℚ
  relationshipLevel : String
  paymentTermsFlexibility : ℚ
deriving DecidableEq, Repr

/-- The four-way `priceBreakdown` record of a `NegotiationResult`. -/
structure PriceBreakdown where
  quantityDiscount : ℚ
  marketAdjustment : ℚ
  vendorBonus : ℚ
  seasonalAdjustment : ℚ
deriving DecidableEq, Repr

/-- The `marketConditions` summary of a `NegotiationResult`. -/
structure MarketFactors where
  supplyLevel : String
  demandLevel : String
  competitionLevel : String
  seasonalTrend : String
  marketVolatility : String
deriving DecidableEq, Repr

/-- Embeds `NegotiationResult`. -/
structure NegotiationResult where
  recommendedPrice : ℚ
  discountPercentage : ℚ
  quantityThresholds : List QuantityTier
  marketConditions : MarketFactors
  basePrice : ℚ
  savings : ℚ
  negotiationStrategy : List String
  priceBreakdown : PriceBreakdown
deriving DecidableEq, Repr

/-- Embeds `NegotiationDelta.initializeQuantityTiers`. -/
def quantityTiers : ComponentCategory → List QuantityTier
  | ComponentCategory.processor =>
    [⟨1, 0, "Retail", 1, 4, 25000⟩,
     ⟨5, 8, "Small Bulk", 5, 9, 23000⟩,
     ⟨10, 15, "Medium Bulk", 10, 24, 21250⟩,
     ⟨25, 22, "Large Bulk", 25, 49, 19500⟩,
     ⟨50, 30, "Wholesale", 50, 999, 17500⟩]
  | ComponentCategory.memory =>
    [⟨1, 0, "Retail", 1, 3, 6500⟩,
     ⟨4, 10, "Kit Discount", 4, 9, 5850⟩,
     ⟨10, 18, "Small Bulk", 10, 19, 5330⟩,
     ⟨20, 25, "Medium Bulk", 20, 49, 4875⟩,
     ⟨50, 35, "Wholesale", 50, 999, 4225⟩]
  | _ => []

/-- Embeds `NegotiationDelta.initializeMarketConditions` (processor -2,
memory +3). -/
def marketConditions : ComponentCategory → Option MarketCondition
  | ComponentCategory.processor =>
    some ⟨"Normal", "High", "Medium", "Low", -2, 95/100⟩
  | ComponentCategory.memory =>
    some ⟨"High", "Medium", "High", "Medium", 3, 85/100⟩
  | _ => none

/-- Embeds `NegotiationDelta.initializeVendorProfiles`. -/
def vendorProfiles : String → Option VendorProfile
  | "vendor_001" => some ⟨"Tech Bazaar", 8/10, "High", 2, "Good", 7/10⟩
  | _ => none

/-- Embeds `NegotiationDelta.initializeSeasonalFactors`, keyed by
`getMonth().toString()` (0 = January ... 11 = December). -/
def seasonalFactors : List (String × ℚ) :=
  [("0", 2), ("1", 1), ("2", 0), ("3", -1), ("4", 0), ("5", 1),
   ("6", -2), ("7", -1), ("8", 0), ("9", -2), ("10", -3), ("11", -2)]

/-- The fallback tier of `getQuantityDiscount` for a category with no
tier table. -/
def defaultQuantityTier : QuantityTier :=
  ⟨1, 0, "Retail", 1, 999, 0⟩

/-- The scan of `getQuantityDiscount`: keep upgrading while the
quantity reaches the tier minimum, stop at the first tier it does
not. -/
def pickTier (quantity : ℚ) : List QuantityTier → QuantityTier → QuantityTier
  | [], acc => acc
  | tier :: rest, acc =>
    if quantity ≥ tier.minimumQuantity then pickTier quantity rest tier else acc

/-- Embeds `NegotiationDelta.getQuantityDiscount`. -/
def getQuantityDiscount (category : ComponentCategory) (quantity : ℚ) : QuantityTier :=
  let tiers := quantityTiers category
  match tiers with
  | [] => defaultQuantityTier
  | t0 :: _ => pickTier quantity tiers t0

/-- Embeds `NegotiationDelta.getMarketAdjustment` with its neutral fallback. -/
def getMarketAdjustment (category : ComponentCategory) : MarketCondition :=
  (marketConditions category).getD ⟨"Normal", "Medium", "Medium", "Low", 0, 1⟩

/-- Embeds `NegotiationDelta.getVendorAdjustment`: no vendor or an unknown
vendor contributes no bonus. -/
def getVendorAdjustment : Option String → VendorProfile
  | none => ⟨"Default", 1/2, "Medium", 0, "New", 1/2⟩
  | some vendorId =>
    (vendorProfiles vendorId).getD ⟨"Unknown", 1/2, "Medium", 0, "New", 1/2⟩

/-- Embeds `NegotiationDelta.getSeasonalAdjustment`, with the calendar month
(`new Date().getMonth()`) passed explicitly.  The `|| 0` fallback also
maps a stored 0 to 0, so `getD` is exact. -/
def getSeasonalAdjustment (month : Nat) : ℚ :=
  ((seasonalFactors.lookup (toString month)).getD 0)

/-- Embeds `NegotiationDelta.getApplicableThresholds`. -/
def getApplicableThresholds (category : ComponentCategory)
    (currentQuantity : ℚ) : List QuantityTier :=
  ((quantityTiers category).filter
    (fun tier => tier.minimumQuantity > currentQuantity)).take 3

/-- Embeds `NegotiationDelta.generateNegotiationStrategy`. -/
def generateNegotiationStrategy (quantity : ℚ) (discountPercentage : ℚ) : List String :=
  (if quantity ≥ 10 then ["Emphasize bulk purchase benefits"] else []) ++
  (if discountPercentage < 15 then
    ["Negotiate for better pricing based on market conditions"] else []) ++
  ["Consider payment terms as negotiation leverage",
   "Bundle with other components for better deals"]

/-- Embeds `NegotiationDelta.calculateDiscount`, lines 25-80 of the source.
The total discount is the sum of the quantity tier, market, vendor and
seasonal parts, capped above at 50 (`Math.min`); there is no cap
below. -/
def calculateDiscount (component : Component) (quantity : ℚ)
    (vendorId : Option String) (month : Nat) : NegotiationResult :=
  let basePrice := component.pricing.retailPrice
  let category := component.category
  let quantityDiscount := getQuantityDiscount category quantity
  let marketAdjustment := getMarketAdjustment category
  let vendorAdjustment := getVendorAdjustment vendorId
  let seasonalAdjustment := getSeasonalAdjustment month
  let totalDiscountPercentage := min 50
    (quantityDiscount.discountPercentage + marketAdjustment.discountAdjustment +
     vendorAdjustment.discountBonus + seasonalAdjustment)
  let discountAmount := basePrice * totalDiscountPercentage / 100
  let recommendedPrice := basePrice - discountAmount
  let savings := basePrice - recommendedPrice
  { recommendedPrice := recommendedPrice
    discountPercentage := totalDiscountPercentage
    quantityThresholds := getApplicableThresholds category quantity
    marketConditions :=
      { supplyLevel := marketAdjustment.supplyLevel
        demandLevel := marketAdjustment.demandLevel
        competitionLevel := marketAdjustment.competitionLevel
        seasonalTrend :=
          if seasonalAdjustment > 0 then "Favorable"
          else if seasonalAdjustment < 0 then "Unfavorable"
          else "Neutral"
        marketVolatility := marketAdjustment.volatility }
    basePrice := basePrice
    savings := savings
    negotiationStrategy := generateNegotiationStrategy quantity totalDiscountPercentage
    priceBreakdown :=
      { quantityDiscount := quantityDiscount.discountPercentage
        marketAdjustment := marketAdjustment.discountAdjustment
        vendorBonus := vendorAdjustment.discountBonus
        seasonalAdjustment := seasonalAdjustment } }

/-! ## `ComponentBridge` (adapter resolver) -/

/-- The `compatibility` block of an `AdapterTemplate`. -/
structure AdapterCompatibility where
  categories : List ComponentCategory
  minVoltage : ℚ
  maxVoltage : ℚ
deriving DecidableEq, Repr

/-- An `AdapterTemplate`, restricted to the fields the embedded scoring
reads (name, output port, power requirement, compatibility window,
reliability factor). -/
structure AdapterTemplate where
  id : String
  name : String
  inputPort : String
  outputPort : String
  requiresPower : Bool
  compatibility : AdapterCompatibility
  reliabilityFactor : ℚ
deriving DecidableEq, Repr

/-- The `vga_to_hdmi` template of
`ComponentBridge.initializeAdapterDatabase`. -/
def vgaToHdmi : AdapterTemplate :=
  { id := "vga_to_hdmi", name := "VGA to HDMI Adapter",
    inputPort := "VGA", outputPort := "HDMI", requiresPower := true,
    compatibility :=
      { categories := [ComponentCategory.graphics, ComponentCategory.motherboard],
        minVoltage := 5, maxVoltage := 12 },
    reliabilityFactor := 85/100 }

/-- The raw weighted score of `ComponentBridge.assessCompatibility`:
category 40, voltage 30 (with a graded fallback of `30 - 10·distance`
to the window), power 20, interface 10. -/
def adapterScore (adapter : AdapterTemplate) (component : Component) : ℚ :=
  let categoryPart : ℚ :=
    if adapter.compatibility.categories.contains component.category then 40 else 0
  let componentVoltage := component.specifications.electrical.voltage
  let voltagePart : ℚ :=
    if adapter.compatibility.minVoltage = 0 ∧ adapter.compatibility.maxVoltage = 0 then 30
    else if componentVoltage ≥ adapter.compatibility.minVoltage ∧
        componentVoltage ≤ adapter.compatibility.maxVoltage then 30
    else
      let voltageDiff := min |componentVoltage - adapter.compatibility.minVoltage|
        |componentVoltage - adapter.compatibility.maxVoltage|
      max 0 (30 - voltageDiff * 10)
  let powerPart : ℚ :=
    if !adapter.requiresPower then 20
    else if component.specifications.electrical.powerConsumption > 0 then 20
    else 0
  let interfacePart : ℚ :=
    match component.specifications.compatibility.interfaceType with
    | some componentInterface =>
      if componentInterface ≠ "" ∧
          (strIncludes componentInterface adapter.outputPort ∨
           strIncludes adapter.outputPort componentInterface) then 10
      else 0
    | none => 0
  categoryPart + voltagePart + powerPart + interfacePart

/-- The percentage of `assessCompatibility`
(`score / maxScore * 100` with `maxScore = 40 + 30 + 20 + 10`). -/
def compatibilityPercentage (adapter : AdapterTemplate) (component : Component) : ℚ :=
  adapterScore adapter component / (40 + 30 + 20 + 10) * 100

/-- Embeds `ComponentBridge.assessCompatibility`, lines 429-479 of the source:
the weighted percentage mapped through the fixed threshold ladder. -/
def assessCompatibility (adapter : AdapterTemplate)
    (component : Component) : CompatibilityLevel :=
  let compatPercentage := compatibilityPercentage adapter component
  if compatPercentage ≥ 90 then CompatibilityLevel.perfect
  else if compatPercentage ≥ 75 then CompatibilityLevel.good
  else if compatPercentage ≥ 50 then CompatibilityLevel.partialBand
  else if compatPercentage ≥ 25 then CompatibilityLevel.poor
  else CompatibilityLevel.incompatible

/-! ## `JugaadDetector` (workaround safety validation) -/

/-- A `JugaadSolution`, restricted to the only field `validateSafety`
reads. -/
structure JugaadSolution where
  alternativeComponents : List Component
deriving DecidableEq, Repr

/-- Total current of a solution (`reduce` with `+`). -/
def totalCurrent (solution : JugaadSolution) : ℚ :=
  solution.alternativeComponents.foldl
    (fun sum c => sum + c.specifications.electrical.current) 0

/-- Total power consumption of a solution. -/
def totalPower (solution : JugaadSolution) : ℚ :=
  solution.alternativeComponents.foldl
    (fun sum c => sum + c.specifications.electrical.powerConsumption) 0

/-- Total weight of a solution. -/
def totalWeight (solution : JugaadSolution) : ℚ :=
  solution.alternativeComponents.foldl
    (fun sum c => sum + c.specifications.physical.weight) 0

/-- Number of cooling-category components of a solution. -/
def coolingCount (solution : JugaadSolution) : ℚ :=
  ((solution.alternativeComponents.filter
    (fun c => c.category = ComponentCategory.cooling)).length : ℚ)

/-- Does `maxVoltage / minVoltage > 2` hold under IEEE-754 evaluation?
For `minVoltage = 0` the quotient is `±Infinity` or `NaN`: it exceeds 2
exactly when `maxVoltage > 0`.  On an empty component list the source
compares `NaN` (from `-Infinity / Infinity`), which is not `> 2`. -/
def voltageRatioExceedsTwo (solution : JugaadSolution) : Bool :=
  match solution.alternativeComponents.map
      (fun c => c.specifications.electrical.voltage) with
  | [] => false
  | v :: vs =>
    let maxVoltage := vs.foldl max v
    let minVoltage := vs.foldl min v
    if minVoltage = 0 then maxVoltage > 0
    else maxVoltage / minVoltage > 2

/-- Embeds `JugaadDetector.checkElectricalSafety`, lines 850-869 of the
source. -/
def checkElectricalSafety (solution : JugaadSolution) : Bool :=
  if voltageRatioExceedsTwo solution then false
  else totalCurrent solution ≤ 50

/-- Embeds `JugaadDetector.checkThermalSafety`: total power within 100 W per
cooling component. -/
def checkThermalSafety (solution : JugaadSolution) : Bool :=
  totalPower solution ≤ coolingCount solution * 100

/-- Embeds `JugaadDetector.checkMechanicalSafety`: total weight strictly below
5000 g. -/
def checkMechanicalSafety (solution : JugaadSolution) : Bool :=
  totalWeight solution < 5000

/-- Embeds `JugaadDetector.checkCompatibilitySafety`: every component declares
an interface type (`!== undefined`). -/
def checkCompatibilitySafety (solution : JugaadSolution) : Bool :=
  solution.alternativeComponents.all
    (fun c => c.specifications.compatibility.interfaceType.isSome)

/-- Embeds `JugaadDetector.validateSafety`, lines 405-422 of the source: the
conjunction of the four checks (`safetyChecks.every`). -/
def validateSafety (solution : JugaadSolution) : Bool :=
  [checkElectricalSafety solution, checkThermalSafety solution,
   checkMechanicalSafety solution, checkCompatibilitySafety solution].all id

/-! ## Claim-side (specification) definitions

These definitions follow the wording of the specification rather than
the source; each is compared against the corresponding embedded source
function in the theorems below. -/

/-- The matcher score as described by the shared weighted-scoring
contract of the spec: weighted criterion fractions divided by the sum
of the *applicable* weights only — a criterion with zero relevance to
the query (no electrical field specified, no compatibility field
specified) is excluded from the denominator — clamped to the engine's
0-1 bound.  The achieved fractions reuse the engine's own proportional
sub-splits. -/
def compatibilityScoreClaimed (component : Component)
    (specs : ComponentSpecification) : ℚ :=
  let categoryFrac : ℚ := if component.category = specs.category then 1 else 0
  let elecApplicable := specs.electricalSpecs.voltage > 0 ∨
    specs.electricalSpecs.frequency > 0 ∨ specs.electricalSpecs.powerConsumption > 0
  let electrical := electricalScorePair component specs
  let compatApplicable := jsTruthyStr specs.compatibility.socketType ∨
    jsTruthyStr specs.compatibility.interfaceType
  let compat := compatScorePair component specs
  let denom : ℚ := 25 + (if elecApplicable then 35 else 0) +
    (if compatApplicable then 40 else 0)
  let num : ℚ := 25 * categoryFrac +
    (if elecApplicable then 35 * (electrical.1 / electrical.2) else 0) +
    (if compatApplicable then 40 * (compat.1 / compat.2) else 0)
  min 1 (max 0 (num / denom))

/-- The parser confidence as described by the claim: base 0.5, +0.3 for
a resolved part number, +0.2 for a non-default category, +0.2 if *any*
electrical field (voltage, current, frequency or power) is nonzero,
+0.1 for a socket or interface, clamped to 1. -/
def confidenceClaimed (input : String) : ℚ :=
  let normalizedInput := jsTrim (jsToLower input)
  let category := identifyCategory normalizedInput
  let partNumber := extractPartNumber normalizedInput
  let electricalSpecs := extractElectricalSpecs normalizedInput
  let compatibility := extractCompatibility normalizedInput
  min 1 ((1/2 : ℚ) +
    (if partNumber ≠ "" ∧ partNumber ≠ "UNKNOWN" then 3/10 else 0) +
    (if category ≠ ComponentCategory.peripherals then 1/5 else 0) +
    (if electricalSpecs.voltage ≠ 0 ∨ electricalSpecs.current ≠ 0 ∨
        electricalSpecs.frequency ≠ 0 ∨ electricalSpecs.powerConsumption ≠ 0 then
      1/5 else 0) +
    (if jsTruthyStr compatibility.socketType ∨
        jsTruthyStr compatibility.interfaceType then 1/10 else 0))

/-- The claimed {OEM +20, first-copy +10, generic -10, unknown -20}
authenticity adjustment. -/
def authenticityAdjustment : AuthenticityLevel → ℚ
  | AuthenticityLevel.oem => 20
  | AuthenticityLevel.firstCopy => 10
  | AuthenticityLevel.generic => -10
  | AuthenticityLevel.unknown => -20

/-- Availability-rank comparison of the claimed search ordering: both
statuses carry a rank (in-stock 3 > limited 2 > out-of-stock 1 >
unknown 0) and the left rank is at least the right one. -/
def availRankGEb (a b : AvailabilityStatus) : Bool :=
  match availabilityOrder a, availabilityOrder b with
  | some ra, some rb => rb ≤ ra
  | _, _ => false

/-- The claimed non-increasing lexicographic search-result order:
compatibility score first, then quality score, then availability
rank. -/
def resultRankGE (a b : SearchResult) : Prop :=
  b.compatibilityScore < a.compatibilityScore ∨
  (b.compatibilityScore = a.compatibilityScore ∧
    (b.qualityScore < a.qualityScore ∨
      (b.qualityScore = a.qualityScore ∧
        availRankGEb a.availabilityStatus b.availabilityStatus = true)))

instance (a b : SearchResult) : Decidable (resultRankGE a b) := by
  unfold resultRankGE; infer_instance

/-- The claimed band ladder: PERFECT at 90, GOOD at 75, PARTIAL at 50,
POOR at 25, INCOMPATIBLE below. -/
def bandOfClaimed (p : ℚ) : CompatibilityLevel :=
  if p ≥ 90 then CompatibilityLevel.perfect
  else if p ≥ 75 then CompatibilityLevel.good
  else if p ≥ 50 then CompatibilityLevel.partialBand
  else if p ≥ 25 then CompatibilityLevel.poor
  else CompatibilityLevel.incompatible

/-- Ordinal rank of a compatibility band. -/
def bandRank : CompatibilityLevel → ℕ
  | CompatibilityLevel.incompatible => 0
  | CompatibilityLevel.poor => 1
  | CompatibilityLevel.partialBand => 2
  | CompatibilityLevel.good => 3
  | CompatibilityLevel.perfect => 4

/-- A fixture: a modern graphics card that fits the `vga_to_hdmi`
template perfectly (used to instantiate the monotonicity theorem). -/
def gpuFixture : Component :=
  { id := "gpu-fix", partNumber := "RTX4070",
    category := ComponentCategory.graphics,
    specifications :=
      { electrical := { voltage := 6, current := 10, frequency := 2500,
                        powerConsumption := 300 }
        physical := { length := 300, width := 120, height := 50,
                      weight := 1200, formFactor := "ATX" }
        compatibility := { socketType := some "PCIE",
                           interfaceType := some "HDMI" } }
    authenticity := AuthenticityLevel.oem
    availability := AvailabilityStatus.inStock
    pricing := { retailPrice := 55000, marketPrice := 52000 }
    location := { sectionId := "gpu-zone", shopNumber := "C-301", floor := 3,
                  x := 30, y := 10 } }

/-! ## Correctness of the `Array.prototype.sort` model -/

theorem mem_jsOrderedInsert {α} (le : α → α → Bool) (a x : α) :
    ∀ l : List α, x ∈ jsOrderedInsert le a l ↔ x = a ∨ x ∈ l := by
  intro l
  induction l with
  | nil => simp [jsOrderedInsert]
  | cons b t ih =>
    by_cases h : le a b = true
    · simp [jsOrderedInsert, h]
    · simp only [jsOrderedInsert, h, if_neg, Bool.not_eq_true] at *
      simp [List.mem_cons, ih]
      tauto

theorem mem_jsSort {α} (le : α → α → Bool) (x : α) :
    ∀ l : List α, x ∈ jsSort le l ↔ x ∈ l := by
  intro l
  induction l with
  | nil => simp [jsSort]
  | cons a t ih =>
    simp [jsSort, mem_jsOrderedInsert, ih]

theorem pairwise_jsOrderedInsert {α} (P : α → Prop) (R : α → α → Prop)
    (le : α → α → Bool)
    (hle : ∀ x y, P x → P y → if le x y then R x y else R y x)
    (htr : ∀ x y z, R x y → R y z → R x z) :
    ∀ (l : List α) (a : α), P a → (∀ x ∈ l, P x) → l.Pairwise R →
      (jsOrderedInsert le a l).Pairwise R := by
  intro l
  induction l with
  | nil =>
    intro a _ _ _
    simp [jsOrderedInsert]
  | cons b t ih =>
    intro a ha hmem hpair
    have hb : P b := hmem b (by simp)
    have htmem : ∀ x ∈ t, P x := fun x hx => hmem x (by simp [hx])
    rcases List.pairwise_cons.mp hpair with ⟨hbt, hpt⟩
    by_cases h : le a b = true
    · have hab : R a b := by have := hle a b ha hb; rwa [if_pos h] at this
      simp only [jsOrderedInsert, h, if_pos]
      refine List.pairwise_cons.mpr ⟨?_, hpair⟩
      intro x hx
      rcases List.mem_cons.mp hx with rfl | hx
      · exact hab
      · exact htr a b x hab (hbt x hx)
    · have hba : R b a := by
        have := hle a b ha hb
        rwa [if_neg h] at this
      simp only [jsOrderedInsert, h, if_neg, Bool.not_eq_true]
      refine List.pairwise_cons.mpr ⟨?_, ih a ha htmem hpt⟩
      intro x hx
      rcases (mem_jsOrderedInsert le a x t).mp hx with rfl | hx
      · exact hba
      · exact hbt x hx

theorem pairwise_jsSort {α} (P : α → Prop) (R : α → α → Prop)
    (le : α → α → Bool)
    (hle : ∀ x y, P x → P y → if le x y then R x y else R y x)
    (htr : ∀ x y z, R x y → R y z → R x z) :
    ∀ l : List α, (∀ x ∈ l, P x) → (jsSort le l).Pairwise R := by
  intro l
  induction l with
  | nil => intro _; simp [jsSort]
  | cons a t ih =>
    intro hmem
    have htmem : ∀ x ∈ t, P x := fun x hx => hmem x (by simp [hx])
    have hsorted := ih htmem
    have hsmem : ∀ x ∈ jsSort le t, P x := fun x hx =>
      htmem x ((mem_jsSort le x t).mp hx)
    exact pairwise_jsOrderedInsert P R le hle htr (jsSort le t) a
      (hmem a (by simp)) hsmem hsorted

/-! ## Claim theorems -/

/-- Claim C2: for every component, quantity, vendor id and month,
`calculateDiscount` caps the discount at 50, returns exactly the sum of
the four breakdown parts whenever that sum is at most 50, always
returns the full four-way breakdown, and sets
`recommendedPrice = basePrice * (1 - discountPercentage / 100)`
exactly. -/
theorem calculateDiscount_contract (component : Component) (quantity : ℚ)
    (vendorId : Option String) (month : Nat) :
    (calculateDiscount component quantity vendorId month).discountPercentage ≤ 50 ∧
    ((getQuantityDiscount component.category quantity).discountPercentage +
        (getMarketAdjustment component.category).discountAdjustment +
        (getVendorAdjustment vendorId).discountBonus +
        getSeasonalAdjustment month ≤ 50 →
      (calculateDiscount component quantity vendorId month).discountPercentage =
        (getQuantityDiscount component.category quantity).discountPercentage +
        (getMarketAdjustment component.category).discountAdjustment +
        (getVendorAdjustment vendorId).discountBonus +
        getSeasonalAdjustment month) ∧
    (calculateDiscount component quantity vendorId month).priceBreakdown =
      { quantityDiscount :=
          (getQuantityDiscount component.category quantity).discountPercentage
        marketAdjustment :=
          (getMarketAdjustment component.category).discountAdjustment
        vendorBonus := (getVendorAdjustment vendorId).discountBonus
        seasonalAdjustment := getSeasonalAdjustment month } ∧
    (calculateDiscount component quantity vendorId month).recommendedPrice =
      (calculateDiscount component quantity vendorId month).basePrice *
        (1 - (calculateDiscount component quantity vendorId month).discountPercentage / 100) := by
  unfold calculateDiscount
  dsimp only
  refine ⟨min_le_left _ _, fun h => min_eq_right h, rfl, by ring_nf⟩

/-- Witness for C2 at a concrete wholesale purchase (50 processors from
`vendor_001` in January: parts 30 - 2 + 2 + 2 = 32 ≤ 50). -/
theorem calculateDiscount_contract_witness :
    (calculateDiscount cpu001 50 (some "vendor_001") 0).discountPercentage =
      (getQuantityDiscount cpu001.category 50).discountPercentage +
      (getMarketAdjustment cpu001.category).discountAdjustment +
      (getVendorAdjustment (some "vendor_001")).discountBonus +
      getSeasonalAdjustment 0 :=
  (calculateDiscount_contract cpu001 50 (some "vendor_001") 0).2.1 (by decide)

/-- Claim C10: the total discount is capped above at 50 but has no
lower clamp: a single processor bought in November (quantity tier 0,
market adjustment -2, no vendor bonus, seasonal -3) receives a negative
discount, and its recommended price exceeds the base price. -/
theorem discount_no_lower_clamp :
    (∀ (component : Component) (quantity : ℚ) (vendorId : Option String)
        (month : Nat),
      (calculateDiscount component quantity vendorId month).discountPercentage ≤ 50) ∧
    (calculateDiscount cpu001 1 none 10).discountPercentage = -5 ∧
    (calculateDiscount cpu001 1 none 10).discountPercentage < 0 ∧
    (calculateDiscount cpu001 1 none 10).basePrice <
      (calculateDiscount cpu001 1 none 10).recommendedPrice := by
  refine ⟨fun component quantity vendorId month => ?_, by decide, by decide, by decide⟩
  unfold calculateDiscount
  dsimp only
  exact min_le_left _ _

/-- Claim C6: `calculateAuthenticityScore` is exactly the clamp to
`[0, 100]` of base 50, plus 30 for an in-tolerance weight and otherwise
minus `min 30 (|variance| * 2)`, plus the mean of the four thermal
metrics times 25, plus the quality overall score times 25, plus the
authenticity-level adjustment; the result is always within
`[0, 100]`. -/
theorem authenticityScore_formula (component : Component) :
    (calculateAuthenticityScore component).confidenceScore =
      max 0 (min 100
        (50 +
          (if (analyzeWeight component).withinTolerance then (30 : ℚ)
            else -(min 30 (|(analyzeWeight component).variance| * 2))) +
          ((assessHeatSync component).heatSyncQuality +
            (assessHeatSync component).thermalConductivity +
            (assessHeatSync component).coolingEfficiency +
            (assessHeatSync component).materialQuality) / 4 * 25 +
          (assessQualityMetrics component).overallScore * 25 +
          authenticityAdjustment component.authenticity)) ∧
    0 ≤ (calculateAuthenticityScore component).confidenceScore ∧
    (calculateAuthenticityScore component).confidenceScore ≤ 100 := by
  refine ⟨?_, ?_, ?_⟩
  · unfold calculateAuthenticityScore authenticityAdjustment
    dsimp only
    cases component.authenticity <;> split_ifs <;> ring_nf
  · unfold calculateAuthenticityScore
    dsimp only
    exact le_max_left 0 _
  · unfold calculateAuthenticityScore
    dsimp only
    exact max_le (by norm_num) (min_le_left _ _)

/-- Claim C7: the adapter band is the fixed threshold ladder applied to
the weighted percentage, and is monotone non-decreasing in it: a pair
with a smaller-or-equal percentage never gets a strictly higher-ranked
band. -/
theorem adapter_band_monotone :
    (∀ (adapter : AdapterTemplate) (component : Component),
      assessCompatibility adapter component =
        bandOfClaimed (compatibilityPercentage adapter component)) ∧
    (∀ (a1 : AdapterTemplate) (c1 : Component) (a2 : AdapterTemplate)
        (c2 : Component),
      compatibilityPercentage a1 c1 ≤ compatibilityPercentage a2 c2 →
        bandRank (assessCompatibility a1 c1) ≤
          bandRank (assessCompatibility a2 c2)) := by
  refine ⟨fun adapter component => rfl, fun a1 c1 a2 c2 h => ?_⟩
  unfold assessCompatibility
  dsimp only
  split_ifs <;> first
    | (simp only [bandRank]; omega)
    | (exfalso; linarith)

/-- Witness for C7: the processor `cpu-001` scores 20% against the
`vga_to_hdmi` template while the graphics fixture scores 100%, and the
bands are ranked accordingly. -/
theorem adapter_band_monotone_witness :
    compatibilityPercentage vgaToHdmi cpu001 ≤
      compatibilityPercentage vgaToHdmi gpuFixture ∧
    bandRank (assessCompatibility vgaToHdmi cpu001) ≤
      bandRank (assessCompatibility vgaToHdmi gpuFixture) :=
  ⟨by decide,
   adapter_band_monotone.2 vgaToHdmi cpu001 vgaToHdmi gpuFixture (by decide)⟩

/-- Claim C8: `validateSafety` accepts exactly when all four checks
pass — electrical (voltage ratio within 2, total current at most 50 A),
thermal (total power within 100 W per cooling component), mechanical
(total weight below 5000 g) and compatibility (every component declares
an interface type) — and in particular any solution whose aggregate
current exceeds 50 A is rejected. -/
theorem validateSafety_iff (solution : JugaadSolution) :
    (validateSafety solution = true ↔
      ((voltageRatioExceedsTwo solution = false ∧ totalCurrent solution ≤ 50) ∧
        totalPower solution ≤ coolingCount solution * 100 ∧
        totalWeight solution < 5000 ∧
        ∀ c ∈ solution.alternativeComponents,
          (c.specifications.compatibility.interfaceType).isSome = true)) ∧
    (50 < totalCurrent solution → validateSafety solution = false) := by
  have hiff : validateSafety solution = true ↔
      ((voltageRatioExceedsTwo solution = false ∧ totalCurrent solution ≤ 50) ∧
        totalPower solution ≤ coolingCount solution * 100 ∧
        totalWeight solution < 5000 ∧
        ∀ c ∈ solution.alternativeComponents,
          (c.specifications.compatibility.interfaceType).isSome = true) := by
    unfold validateSafety checkElectricalSafety checkThermalSafety
      checkMechanicalSafety checkCompatibilitySafety
    by_cases hv : voltageRatioExceedsTwo solution = true
    · simp [hv]
    · simp only [Bool.not_eq_true] at hv
      simp [hv, List.all_eq_true, decide_eq_true_iff, and_assoc]
  refine ⟨hiff, fun hcur => ?_⟩
  by_contra hne
  have : validateSafety solution = true := by
    cases hval : validateSafety solution
    · exact absurd hval hne
    · rfl
  have := (hiff.mp this).1.2
  linarith

/-- Witness for C8: a solution consisting of the single processor
`cpu-001` draws 125 A and is rejected. -/
theorem validateSafety_overcurrent_witness :
    validateSafety { alternativeComponents := [cpu001] } = false :=
  (validateSafety_iff { alternativeComponents := [cpu001] }).2 (by decide)

/-- Bounds for one graded electrical sub-score
`max 0 (w - d / v * 100)` with nonnegative difference `d` and positive
reference value `v`. -/
theorem unitScore_bounds (w d v : ℚ) (hw : 0 ≤ w) (hd : 0 ≤ d) (hv : 0 < v) :
    0 ≤ max 0 (w - d / v * 100) ∧ max 0 (w - d / v * 100) ≤ w := by
  constructor
  · exact le_max_left 0 _
  · have hnn : 0 ≤ d / v * 100 := by positivity
    exact max_le hw (by linarith)

/-- The electrical accumulator stays within its applicable weight. -/
theorem electricalScorePair_bounds (component : Component)
    (specs : ComponentSpecification) :
    0 ≤ (electricalScorePair component specs).1 ∧
    (electricalScorePair component specs).1 ≤ (electricalScorePair component specs).2 ∧
    (electricalScorePair component specs).2 ≤ 35 := by
  unfold electricalScorePair
  dsimp only
  set cv := component.specifications.electrical.voltage with hcv
  set cf := component.specifications.electrical.frequency with hcf
  set cp := component.specifications.electrical.powerConsumption with hcp
  set sv := specs.electricalSpecs.voltage with hsv
  set sf := specs.electricalSpecs.frequency with hsf
  set sp := specs.electricalSpecs.powerConsumption with hsp
  by_cases h1 : sv > 0 <;> by_cases h2 : sf > 0 <;> by_cases h3 : sp > 0 <;>
    simp only [h1, h2, h3, if_true, if_false, ite_true, ite_false]
  · obtain ⟨a1, a2⟩ := unitScore_bounds 10 (abs (cv - sv)) sv (by norm_num) (abs_nonneg _) h1
    obtain ⟨b1, b2⟩ := unitScore_bounds 15 (abs (cf - sf)) sf (by norm_num) (abs_nonneg _) h2
    obtain ⟨c1, c2⟩ := unitScore_bounds 10 (abs (cp - sp)) sp (by norm_num) (abs_nonneg _) h3
    refine ⟨by linarith, by linarith, by norm_num⟩
  · obtain ⟨a1, a2⟩ := unitScore_bounds 10 (abs (cv - sv)) sv (by norm_num) (abs_nonneg _) h1
    obtain ⟨b1, b2⟩ := unitScore_bounds 15 (abs (cf - sf)) sf (by norm_num) (abs_nonneg _) h2
    refine ⟨by linarith, by linarith, by norm_num⟩
  · obtain ⟨a1, a2⟩ := unitScore_bounds 10 (abs (cv - sv)) sv (by norm_num) (abs_nonneg _) h1
    obtain ⟨c1, c2⟩ := unitScore_bounds 10 (abs (cp - sp)) sp (by norm_num) (abs_nonneg _) h3
    refine ⟨by linarith, by linarith, by norm_num⟩
  · obtain ⟨a1, a2⟩ := unitScore_bounds 10 (abs (cv - sv)) sv (by norm_num) (abs_nonneg _) h1
    refine ⟨by linarith, by linarith, by norm_num⟩
  · obtain ⟨b1, b2⟩ := unitScore_bounds 15 (abs (cf - sf)) sf (by norm_num) (abs_nonneg _) h2
    obtain ⟨c1, c2⟩ := unitScore_bounds 10 (abs (cp - sp)) sp (by norm_num) (abs_nonneg _) h3
    refine ⟨by linarith, by linarith, by norm_num⟩
  · obtain ⟨b1, b2⟩ := unitScore_bounds 15 (abs (cf - sf)) sf (by norm_num) (abs_nonneg _) h2
    refine ⟨by linarith, by linarith, by norm_num⟩
  · obtain ⟨c1, c2⟩ := unitScore_bounds 10 (abs (cp - sp)) sp (by norm_num) (abs_nonneg _) h3
    refine ⟨by linarith, by linarith, by norm_num⟩
  · refine ⟨le_refl 0, le_refl 0, by norm_num⟩

/-- The compatibility accumulator stays within its applicable weight. -/
theorem compatScorePair_bounds (component : Component)
    (specs : ComponentSpecification) :
    0 ≤ (compatScorePair component specs).1 ∧
    (compatScorePair component specs).1 ≤ (compatScorePair component specs).2 ∧
    (compatScorePair component specs).2 ≤ 40 := by
  unfold compatScorePair
  by_cases h1 : jsTruthyStr specs.compatibility.socketType = true <;>
  by_cases h2 : jsTruthyStr specs.compatibility.interfaceType = true <;>
  simp only [h1, h2, if_true, if_false, ite_true, ite_false] <;>
  split_ifs <;> norm_num

/-- Claim C1, counterexample: for the inventory memory module and the
parse of the bare query `ram` (category only, no electrical or
compatibility fields), the engine returns 25/100 = 1/4 — the unused
criteria stay in the denominator — while the claimed
applicable-weights-only normalisation would give 25/25 = 1. -/
theorem compatibilityScore_denominator_counterexample :
    calculateCompatibilityScore mem001 ((parseSpecification "ram").extractedSpecs) = 1/4 ∧
    compatibilityScoreClaimed mem001 ((parseSpecification "ram").extractedSpecs) = 1 ∧
    calculateCompatibilityScore mem001 ((parseSpecification "ram").extractedSpecs) ≠
      compatibilityScoreClaimed mem001 ((parseSpecification "ram").extractedSpecs) := by
  refine ⟨by decide, by decide, by decide⟩

/-- Claim C1, amended: `calculateCompatibilityScore` is the weighted sum
of the category, electrical and compatibility criteria divided by the
*fixed* total weight 100 — a criterion with zero relevance to the query
contributes zero to the numerator but is *not* excluded from the
denominator — and the result always lies in the 0-1 bound without any
explicit clamping. -/
theorem compatibilityScore_fixed_denominator (component : Component)
    (specs : ComponentSpecification) :
    calculateCompatibilityScore component specs =
      ((if component.category = specs.category then (25:ℚ) else 0) +
        (if (electricalScorePair component specs).2 > 0 then
          (electricalScorePair component specs).1 /
            (electricalScorePair component specs).2 * 35 else 0) +
        (if (compatScorePair component specs).2 > 0 then
          (compatScorePair component specs).1 /
            (compatScorePair component specs).2 * 40 else 0)) / 100 ∧
    0 ≤ calculateCompatibilityScore component specs ∧
    calculateCompatibilityScore component specs ≤ 1 := by
  have heq : calculateCompatibilityScore component specs =
      ((if component.category = specs.category then (25:ℚ) else 0) +
        (if (electricalScorePair component specs).2 > 0 then
          (electricalScorePair component specs).1 /
            (electricalScorePair component specs).2 * 35 else 0) +
        (if (compatScorePair component specs).2 > 0 then
          (compatScorePair component specs).1 /
            (compatScorePair component specs).2 * 40 else 0)) / 100 := by
    unfold calculateCompatibilityScore
    norm_num
  have hcat : 0 ≤ (if component.category = specs.category then (25:ℚ) else 0) ∧
      (if component.category = specs.category then (25:ℚ) else 0) ≤ 25 := by
    split_ifs <;> norm_num
  have helec : 0 ≤ (if (electricalScorePair component specs).2 > 0 then
        (electricalScorePair component specs).1 /
          (electricalScorePair component specs).2 * 35 else 0) ∧
      (if (electricalScorePair component specs).2 > 0 then
        (electricalScorePair component specs).1 /
          (electricalScorePair component specs).2 * 35 else 0) ≤ 35 := by
    obtain ⟨e1, e2, _⟩ := electricalScorePair_bounds component specs
    split_ifs with h
    · have hfrac : (electricalScorePair component specs).1 /
          (electricalScorePair component specs).2 ≤ 1 :=
        (div_le_one h).mpr e2
      have hnn : 0 ≤ (electricalScorePair component specs).1 /
          (electricalScorePair component specs).2 := div_nonneg e1 (le_of_lt h)
      constructor <;> nlinarith
    · norm_num
  have hcompat : 0 ≤ (if (compatScorePair component specs).2 > 0 then
        (compatScorePair component specs).1 /
          (compatScorePair component specs).2 * 40 else 0) ∧
      (if (compatScorePair component specs).2 > 0 then
        (compatScorePair component specs).1 /
          (compatScorePair component specs).2 * 40 else 0) ≤ 40 := by
    obtain ⟨c1, c2, _⟩ := compatScorePair_bounds component specs
    split_ifs with h
    · have hfrac : (compatScorePair component specs).1 /
          (compatScorePair component specs).2 ≤ 1 :=
        (div_le_one h).mpr c2
      have hnn : 0 ≤ (compatScorePair component specs).1 /
          (compatScorePair component specs).2 := div_nonneg c1 (le_of_lt h)
      constructor <;> nlinarith
    · norm_num
  refine ⟨heq, ?_, ?_⟩
  · rw [heq]
    have := hcat.1; have := helec.1; have := hcompat.1
    positivity
  · rw [heq]
    rw [div_le_one (by norm_num : (0:ℚ) < 100)]
    linarith [hcat.2, helec.2, hcompat.2]

/-- Claim C4, counterexample: the input `65 watts` extracts a nonzero
power field, so the claimed formula adds the 0.2 electrical bonus
(0.7 total), but the source only consults voltage and frequency and
returns the bare base confidence 0.5. -/
theorem parser_confidence_counterexample :
    (parseSpecification "65 watts").confidence = 1/2 ∧
    confidenceClaimed "65 watts" = 7/10 ∧
    (parseSpecification "65 watts").confidence ≠ confidenceClaimed "65 watts" := by
  refine ⟨by decide, by decide, by decide⟩

/-- Claim C4, amended: the confidence is base 0.5, +0.3 for a resolved
part number, +0.2 for a non-default category, +0.2 if the extracted
*voltage or frequency* is positive (current and power do not
contribute), +0.1 for a socket or interface, clamped to 1; it always
lies in `[0, 1]` (indeed in `[0.5, 1]`). -/
theorem parser_confidence_formula (input : String) :
    (parseSpecification input).confidence =
      min 1 ((1/2 : ℚ) +
        (if extractPartNumber (jsTrim (jsToLower input)) ≠ "" ∧
            extractPartNumber (jsTrim (jsToLower input)) ≠ "UNKNOWN" then 3/10 else 0) +
        (if identifyCategory (jsTrim (jsToLower input)) ≠
            ComponentCategory.peripherals then 1/5 else 0) +
        (if (extractElectricalSpecs (jsTrim (jsToLower input))).voltage > 0 ∨
            (extractElectricalSpecs (jsTrim (jsToLower input))).frequency > 0 then
          1/5 else 0) +
        (if jsTruthyStr (extractCompatibility (jsTrim (jsToLower input))).socketType ∨
            jsTruthyStr (extractCompatibility (jsTrim (jsToLower input))).interfaceType then
          1/10 else 0)) ∧
    0 ≤ (parseSpecification input).confidence ∧
    (parseSpecification input).confidence ≤ 1 := by
  refine ⟨?_, ?_, ?_⟩
  · unfold parseSpecification
    dsimp only
    split_ifs <;> norm_num
  · unfold parseSpecification
    dsimp only
    refine le_min (by norm_num) ?_
    split_ifs <;> norm_num
  · unfold parseSpecification
    dsimp only
    exact min_le_left 1 _

/-- Claim C5 (code bug), evaluated at the failing input `65 watts`: the
category is the default and no part number was extracted, yet the
category ambiguity is *not* raised — the guard tests the truthiness of
the non-empty sentinel `UNKNOWN` and is dead code — while the
electrical ambiguity *is* raised even though the extracted power is
65 (nonzero). -/
theorem parser_ambiguity_failing_input :
    (parseSpecification "65 watts").extractedSpecs.category =
      ComponentCategory.peripherals ∧
    extractPartNumber (jsTrim (jsToLower "65 watts")) = "UNKNOWN" ∧
    (parseSpecification "65 watts").extractedSpecs.electricalSpecs.powerConsumption = 65 ∧
    (parseSpecification "65 watts").ambiguities = [electricalAmbiguityMsg] := by
  refine ⟨by decide, by decide, by decide, by decide⟩

/-- Availability-rank comparison is transitive. -/
theorem availRankGEb_trans {a b c : AvailabilityStatus}
    (h1 : availRankGEb a b = true) (h2 : availRankGEb b c = true) :
    availRankGEb a c = true := by
  unfold availRankGEb at *
  cases ha : availabilityOrder a <;> cases hb : availabilityOrder b <;>
    cases hc : availabilityOrder c <;>
    simp only [ha, hb, hc, decide_eq_true_eq] at h1 h2 ⊢
  all_goals first | linarith | simp_all

/-- The claimed search ordering is transitive. -/
theorem resultRankGE_trans (x y z : SearchResult)
    (hxy : resultRankGE x y) (hyz : resultRankGE y z) : resultRankGE x z := by
  unfold resultRankGE at *
  rcases hxy with h1 | ⟨h1, h2⟩
  · rcases hyz with g1 | ⟨g1, _⟩
    · exact Or.inl (lt_trans g1 h1)
    · exact Or.inl (g1 ▸ h1)
  · rcases hyz with g1 | ⟨g1, g2⟩
    · exact Or.inl (h1 ▸ g1)
    · refine Or.inr ⟨g1.trans h1, ?_⟩
      rcases h2 with h2 | ⟨h2, h3⟩
      · rcases g2 with g2 | ⟨g2, _⟩
        · exact Or.inl (lt_trans g2 h2)
        · exact Or.inl (g2 ▸ h2)
      · rcases g2 with g2 | ⟨g2, g3⟩
        · exact Or.inl (h2 ▸ g2)
        · exact Or.inr ⟨g2.trans h2, availRankGEb_trans h3 g3⟩

/-- A nonpositive comparator value certifies the claimed order. -/
theorem searchResultCmp_nonpos_rank {x y : SearchResult} {ra rb : ℚ}
    (hra : availabilityOrder x.availabilityStatus = some ra)
    (hrb : availabilityOrder y.availabilityStatus = some rb)
    (h : searchResultCmp x y ≤ 0) : resultRankGE x y := by
  unfold searchResultCmp at h
  unfold resultRankGE
  split_ifs at h with d1 d2
  · exact Or.inl (lt_of_le_of_ne (by linarith) fun e => d1 e.symm)
  · have h1 : x.compatibilityScore = y.compatibilityScore := not_ne_iff.mp d1
    exact Or.inr ⟨h1.symm,
      Or.inl (lt_of_le_of_ne (by linarith) fun e => d2 e.symm)⟩
  · have h1 : x.compatibilityScore = y.compatibilityScore := not_ne_iff.mp d1
    have h2 : x.qualityScore = y.qualityScore := not_ne_iff.mp d2
    rw [hra, hrb] at h
    dsimp only at h
    refine Or.inr ⟨h1.symm, Or.inr ⟨h2.symm, ?_⟩⟩
    unfold availRankGEb
    rw [hra, hrb]
    simp only [decide_eq_true_eq]
    linarith

/-- A positive comparator value certifies the claimed order reversed. -/
theorem searchResultCmp_pos_rank {x y : SearchResult} {ra rb : ℚ}
    (hra : availabilityOrder x.availabilityStatus = some ra)
    (hrb : availabilityOrder y.availabilityStatus = some rb)
    (h : ¬ searchResultCmp x y ≤ 0) : resultRankGE y x := by
  unfold searchResultCmp at h
  unfold resultRankGE
  split_ifs at h with d1 d2
  · have hlt := not_le.mp h
    exact Or.inl (lt_of_le_of_ne (by linarith) d1)
  · have h1 : x.compatibilityScore = y.compatibilityScore := not_ne_iff.mp d1
    have hlt := not_le.mp h
    exact Or.inr ⟨h1, Or.inl (lt_of_le_of_ne (by linarith) d2)⟩
  · have h1 : x.compatibilityScore = y.compatibilityScore := not_ne_iff.mp d1
    have h2 : x.qualityScore = y.qualityScore := not_ne_iff.mp d2
    rw [hra, hrb] at h
    dsimp only at h
    have hlt := not_le.mp h
    refine Or.inr ⟨h1, Or.inr ⟨h2, ?_⟩⟩
    unfold availRankGEb
    rw [hra, hrb]
    simp only [decide_eq_true_eq]
    linarith

/-- On results whose availability has a rank, the comparator of the
source decides the claimed order. -/
theorem searchResultCmp_decides (x y : SearchResult)
    (hx : (availabilityOrder x.availabilityStatus).isSome = true)
    (hy : (availabilityOrder y.availabilityStatus).isSome = true) :
    if (searchResultCmp x y ≤ 0 : Bool) then resultRankGE x y else resultRankGE y x := by
  obtain ⟨ra, hra⟩ := Option.isSome_iff_exists.mp hx
  obtain ⟨rb, hrb⟩ := Option.isSome_iff_exists.mp hy
  by_cases h : searchResultCmp x y ≤ 0
  · simp only [h, decide_True, if_true]
    exact searchResultCmp_nonpos_rank hra hrb h
  · simp only [h, decide_False, if_false]
    exact searchResultCmp_pos_rank hra hrb h

/-- Every match found by `findMatchingComponents` lives in some entry
of the database. -/
theorem mem_findMatchingComponents {db : List (String × List Component)}
    {specs : ComponentSpecification} {c : Component}
    (hc : c ∈ findMatchingComponents db specs) :
    ∃ entry ∈ db, c ∈ entry.2 := by
  unfold findMatchingComponents at hc
  induction db with
  | nil => simp at hc
  | cons e t ih =>
    simp only [List.foldr_cons, List.mem_append] at hc
    rcases hc with hc | hc
    · exact ⟨e, by simp, (List.mem_filter.mp hc).1⟩
    · obtain ⟨entry, hmem, hcm⟩ := ih hc
      exact ⟨entry, by simp [hmem], hcm⟩

/-- Claim C3: for every database whose components carry one of the four
ranked availability statuses (the source record has no rank for
`discontinued`, which its inventory never uses) and every query, the
search results are sorted non-increasing in the lexicographic order
(compatibility score, quality score, availability rank). -/
theorem searchComponents_sorted (db : List (String × List Component))
    (query : SearchQuery)
    (hdb : ∀ entry ∈ db, ∀ c ∈ entry.2,
      c.availability ≠ AvailabilityStatus.discontinued) :
    (searchComponents db query).Pairwise resultRankGE := by
  unfold searchComponents
  dsimp only
  split_ifs with hamb hfound
  · exact List.pairwise_singleton _ _
  · exact List.pairwise_singleton _ _
  · unfold rankSearchResults
    refine pairwise_jsSort
      (fun r => (availabilityOrder r.availabilityStatus).isSome = true)
      resultRankGE _ ?_ resultRankGE_trans _ ?_
    · intro x y hx hy
      exact searchResultCmp_decides x y hx hy
    · intro r hr
      obtain ⟨c, hcm, rfl⟩ := List.mem_map.mp hr
      obtain ⟨entry, hentry, hce⟩ := mem_findMatchingComponents hcm
      have hnd := hdb entry hentry c hce
      dsimp only
      cases h : c.availability <;> simp [availabilityOrder]
      exact hnd h

/-- Witness for C3 at the live database and the query `cpu 3.7ghz`,
which matches both sample processors. -/
theorem searchComponents_sorted_witness :
    (searchComponents componentDatabase
      { specification := "cpu 3.7ghz", category := ComponentCategory.peripherals,
        maxResults := none }).Pairwise resultRankGE :=
  searchComponents_sorted componentDatabase
    { specification := "cpu 3.7ghz", category := ComponentCategory.peripherals,
      maxResults := none } (by decide)

/-- Membership in a keyed fold of `filterMap`s comes from some entry. -/
theorem foldr_filterMap_mem {α β γ : Type} (g : γ → Option β)
    (db : List (α × List γ)) {x : β}
    (hx : x ∈ db.foldr (fun entry acc => entry.2.filterMap g ++ acc) []) :
    ∃ c, (∃ entry ∈ db, c ∈ entry.2) ∧ g c = some x := by
  induction db with
  | nil => simp at hx
  | cons e t ih =>
    simp only [List.foldr_cons, List.mem_append] at hx
    rcases hx with hx | hx
    · obtain ⟨c, hc, hg⟩ := List.mem_filterMap.mp hx
      exact ⟨c, ⟨e, by simp, hc⟩, hg⟩
    · obtain ⟨c, ⟨entry, hentry, hc⟩, hg⟩ := ih hx
      exact ⟨c, ⟨entry, by simp [hentry], hc⟩, hg⟩

/-- Every suggestion produced by `findAlternativeComponents` is a
same-category candidate scoring strictly above one half. -/
theorem mem_findAlternativeComponents {db : List (String × List Component)}
    {specs : ComponentSpecification} {excl : Option Component}
    {x : AlternativeSuggestion}
    (hx : x ∈ findAlternativeComponents db specs excl) :
    x.component.category = specs.category ∧ (1:ℚ)/2 < x.compatibilityScore := by
  unfold findAlternativeComponents at hx
  have hx1 := List.take_subset 5 _ hx
  have hx2 := (mem_jsSort _ x _).mp hx1
  obtain ⟨c, ⟨entry, hentry, hc⟩, hg⟩ := foldr_filterMap_mem _ db hx2
  dsimp only at hg
  split_ifs at hg with hid hcat hscore
  obtain rfl := Option.some.inj hg
  exact ⟨hcat, hscore⟩

/-- The suggestions of `findAlternativeComponents` are sorted
non-increasing by compatibility score. -/
theorem pairwise_findAlternativeComponents
    (db : List (String × List Component)) (specs : ComponentSpecification)
    (excl : Option Component) :
    (findAlternativeComponents db specs excl).Pairwise
      (fun a b => b.compatibilityScore ≤ a.compatibilityScore) := by
  unfold findAlternativeComponents
  refine List.Pairwise.sublist (List.take_sublist _ _) ?_
  refine pairwise_jsSort (fun _ => True)
    (fun a b : AlternativeSuggestion =>
      b.compatibilityScore ≤ a.compatibilityScore)
    (fun a b : AlternativeSuggestion =>
      decide (b.compatibilityScore ≤ a.compatibilityScore)) ?_ ?_ _
    (fun _ _ => trivial)
  · intro a b _ _
    by_cases h : b.compatibilityScore ≤ a.compatibilityScore
    · simp [h]
    · simp only [h, decide_False, if_false, ite_false]
      exact le_of_not_le h
  · intro a b c h1 h2
    exact le_trans h2 h1

/-- Claim C9: a non-ambiguous query with no inventory match yields
exactly one placeholder result (no real component, compatibility score
0) carrying at most five alternative suggestions, each a same-category
candidate with compatibility score at least one half, sorted descending
by compatibility score. -/
theorem searchComponents_no_match (db : List (String × List Component))
    (query : SearchQuery)
    (hamb : (parseSpecification query.specification).ambiguities = [])
    (hnone : findMatchingComponents db
      (parseSpecification query.specification).extractedSpecs = []) :
    searchComponents db query =
      [{ component := createPlaceholderComponent query.specification
         availabilityStatus := AvailabilityStatus.outOfStock
         location := getDefaultLocation
         compatibilityScore := 0
         qualityScore := 0
         requiresClarification := false
         clarificationPrompts := []
         alternatives := findAlternativeComponents db
           (parseSpecification query.specification).extractedSpecs none }] ∧
    (findAlternativeComponents db
      (parseSpecification query.specification).extractedSpecs none).length ≤ 5 ∧
    (∀ a ∈ findAlternativeComponents db
        (parseSpecification query.specification).extractedSpecs none,
      a.component.category =
        (parseSpecification query.specification).extractedSpecs.category ∧
      (1:ℚ)/2 ≤ a.compatibilityScore) ∧
    (findAlternativeComponents db
      (parseSpecification query.specification).extractedSpecs none).Pairwise
      (fun a b => b.compatibilityScore ≤ a.compatibilityScore) := by
  refine ⟨?_, ?_, ?_, pairwise_findAlternativeComponents db _ none⟩
  · unfold searchComponents
    dsimp only
    simp [hamb, hnone]
  · unfold findAlternativeComponents
    simp only [List.length_take]
    exact min_le_left _ _
  · intro a ha
    obtain ⟨h1, h2⟩ := mem_findAlternativeComponents ha
    exact ⟨h1, le_of_lt h2⟩

/-- Witness for C9 at the live database and the query `ssd 500gb 5v`
(parsed as a memory query with voltage 5, matching nothing). -/
theorem searchComponents_no_match_witness :
    searchComponents componentDatabase
      { specification := "ssd 500gb 5v", category := ComponentCategory.peripherals,
        maxResults := none } =
      [{ component := createPlaceholderComponent "ssd 500gb 5v"
         availabilityStatus := AvailabilityStatus.outOfStock
         location := getDefaultLocation
         compatibilityScore := 0
         qualityScore := 0
         requiresClarification := false
         clarificationPrompts := []
         alternatives := findAlternativeComponents componentDatabase
           (parseSpecification "ssd 500gb 5v").extractedSpecs none }] ∧
    (findAlternativeComponents componentDatabase
      (parseSpecification "ssd 500gb 5v").extractedSpecs none).length ≤ 5 ∧
    (∀ a ∈ findAlternativeComponents componentDatabase
        (parseSpecification "ssd 500gb 5v").extractedSpecs none,
      a.component.category =
        (parseSpecification "ssd 500gb 5v").extractedSpecs.category ∧
      (1:ℚ)/2 ≤ a.compatibilityScore) ∧
    (findAlternativeComponents componentDatabase
      (parseSpecification "ssd 500gb 5v").extractedSpecs none).Pairwise
      (fun a b => b.compatibilityScore ≤ a.compatibilityScore) :=
  searchComponents_no_match componentDatabase
    { specification := "ssd 500gb 5v", category := ComponentCategory.peripherals,
      maxResults := none } (by decide) (by decide)
